import Mathlib

/-!
Verification of the dot-chess rules engine (repository elkozmon/dot-chess).

This file shallowly embeds the Rust sources of the engine:
  * `src/dot_chess/board/bitboard.rs`   (64-bit set primitive, masks, shifts)
  * `src/dot_chess/board/mod.rs`        (`Flags`, `Board`, attack and move generation)
  * `src/dot_chess/board/mov.rs`        (`Mov` and its 16-bit packed form)
  * `src/dot_chess/game.rs`             (`State`, `Game`, FEN import/export, move application)
  * `src/dot_chess/zobrist.rs`          (Zobrist key table and key indexing)

Machine integers are modelled as `Nat` with explicit masking: `u64` values are
kept below `2^64` (shifts are masked), `u16` below `2^16`, `u32` below `2^32`.
Fallible Rust functions returning `Result` are modelled with `Except Error`;
a Rust `panic!`/`unwrap` failure is modelled by the distinguished error
`Error.panicE`.

A few items of the repository are not present under `src/` (only their callers
are); each such definition carries a doc comment starting with
`Modelled from the spec:` and follows the specification text.
-/

namespace DotChess

/-- All 64 bits set; `u64` complement is XOR with this mask. -/
def U64MASK : Nat := 0xffffffffffffffff

/-- `u64` left shift: `bitboard.rs` `Shl` for `BitBoard` (result truncated to 64 bits). -/
def shl64 (x n : Nat) : Nat := (x <<< n) &&& U64MASK

/-- `u64` right shift: `bitboard.rs` `Shr` for `BitBoard`. -/
def shr64 (x n : Nat) : Nat := x >>> n

/-- `u64` bitwise complement: `bitboard.rs` `Not` for `BitBoard`. -/
def not64 (x : Nat) : Nat := x ^^^ U64MASK

/-- `tzcnt`: index of the lowest set bit, 64 on zero (x86 `TZCNT` semantics,
used by `BitBoard::bit_scan` with `reverse = false`). -/
def tzcnt64 (x : Nat) : Nat :=
  (((List.range 64).find? (fun i => x.testBit i)).getD 64)

/-- `63 - lzcnt`: index of the highest set bit (`BitBoard::bit_scan` with
`reverse = true`); the source asserts non-emptiness, we return 0 on zero. -/
def bsr64 (x : Nat) : Nat :=
  (List.range 64).foldl (fun a i => if x.testBit i then i else a) 0

/-- `blsfill`: set all bits up to and including the lowest set bit
(`x | (x - 1)`; on zero the x86 instruction yields all ones). -/
def blsfill64 (x : Nat) : Nat :=
  if x = 0 then U64MASK else x ||| (x - 1)

/-- `Side` (`board/side.rs`). -/
inductive Side where
  | white
  | black
deriving DecidableEq

/-- `Side::flip` (`board/side.rs`). -/
def Side.flip : Side → Side
  | .white => .black
  | .black => .white

/-- `Piece` (`board/piece.rs`). -/
inductive Piece where
  | pawn
  | knight
  | bishop
  | rook
  | queen
  | king
deriving DecidableEq

/-- `Piece` into `u8` (`dot_chess/board/piece.rs`: `Pawn => 1, ..., King => 6`). -/
def Piece.toU8 : Piece → Nat
  | .pawn => 1
  | .knight => 2
  | .bishop => 3
  | .rook => 4
  | .queen => 5
  | .king => 6

/-- Error kinds (`common.rs` / `lib.rs`); the carried strings are irrelevant to the
claims and dropped.  `panicE` stands for a Rust `panic!` (failed `unwrap`). -/
inductive Error where
  | invalidArgument
  | illegalMove
  | panicE
deriving DecidableEq

/-! ## BitBoard masks (`board/bitboard.rs`) -/

/-- `BitBoard::square`: `1 << square_index`. -/
def sqBB (s : Nat) : Nat := shl64 1 s

/-- `BitBoard::positive`: all squares after `s` in bit-index order. -/
def positiveBB (s : Nat) : Nat := not64 (blsfill64 (sqBB s))

/-- `BitBoard::negative`: all squares before `s` in bit-index order. -/
def negativeBB (s : Nat) : Nat := shr64 (blsfill64 (sqBB s)) 1

/-- `BitBoard::rank_mask`: `0xff << (s & 56)`. -/
def rankMask (s : Nat) : Nat := shl64 0xff (s &&& 56)

/-- `BitBoard::file_mask`: `0x0101010101010101 << (s & 7)`. -/
def fileMask (s : Nat) : Nat := shl64 0x0101010101010101 (s &&& 7)

/-- `BitBoard::diagonal_mask`, with the signed shift selection rewritten as a
comparison: `diag = 8*(s&7) - (s&56)` shifts the a1–h8 diagonal south when
non-negative and north when negative. -/
def diagonalMask (s : Nat) : Nat :=
  let f := s &&& 7
  let r8 := s &&& 56
  if r8 ≤ 8 * f then shr64 0x8040201008040201 (8 * f - r8)
  else shl64 0x8040201008040201 (r8 - 8 * f)

/-- `BitBoard::anti_diagonal_mask`: `diag = 56 - 8*(s&7) - (s&56)`. -/
def antiDiagonalMask (s : Nat) : Nat :=
  let f := s &&& 7
  let r8 := s &&& 56
  if 8 * f + r8 ≤ 56 then shr64 0x0102040810204080 (56 - 8 * f - r8)
  else shl64 0x0102040810204080 (8 * f + r8 - 56)

/-- `Direction` (`board/direction.rs`). -/
inductive Direction where
  | north
  | northEast
  | east
  | southEast
  | south
  | southWest
  | west
  | northWest
deriving DecidableEq

/-- `Direction::negative` (`board/direction.rs`: positive are NW, N, NE, E). -/
def Direction.negativeDir : Direction → Bool
  | .northWest | .north | .northEast | .east => false
  | _ => true

/-- `BitBoard::ray_mask` (`board/bitboard.rs`). -/
def rayMask (s : Nat) : Direction → Nat
  | .north => fileMask s &&& positiveBB s
  | .northEast => diagonalMask s &&& positiveBB s
  | .east => rankMask s &&& positiveBB s
  | .southEast => antiDiagonalMask s &&& negativeBB s
  | .south => fileMask s &&& negativeBB s
  | .southWest => diagonalMask s &&& negativeBB s
  | .west => rankMask s &&& negativeBB s
  | .northWest => antiDiagonalMask s &&& positiveBB s

/-- `BitBoard::knight_attacks_mask`: fixed offsets `[6,15,17,10,-6,-15,-17,-10]`
filtered to 0..63 (as in the source, with no file-wrap guard). -/
def knightAttacksMask (s : Nat) : Nat :=
  let offs : List Int := [6, 15, 17, 10, -6, -15, -17, -10]
  (offs.filterMap (fun i =>
    let t : Int := (s : Int) + i
    if t ≥ 64 then none else if t < 0 then none else some (sqBB t.toNat))).foldl
    (fun l r => l ||| r) 0

/-- `BitBoard::north_one`. -/
def northOne (b : Nat) : Nat := shl64 b 8

/-- `BitBoard::south_one`. -/
def southOne (b : Nat) : Nat := shr64 b 8

/-- `BitBoard::east_one`: `(b << 1) & NOT_FILE_A`. -/
def eastOne (b : Nat) : Nat := shl64 b 1 &&& 0xfefefefefefefefe

/-- `BitBoard::west_one`: `(b >> 1) & NOT_FILE_H`. -/
def westOne (b : Nat) : Nat := shr64 b 1 &&& 0x7f7f7f7f7f7f7f7f

/-- `BitBoard::north_east_one`: `(b << 9) & NOT_FILE_A`. -/
def northEastOne (b : Nat) : Nat := shl64 b 9 &&& 0xfefefefefefefefe

/-- `BitBoard::north_west_one`: `(b << 7) & NOT_FILE_H`. -/
def northWestOne (b : Nat) : Nat := shl64 b 7 &&& 0x7f7f7f7f7f7f7f7f

/-- `BitBoard::south_east_one`: `(b >> 7) & NOT_FILE_A`. -/
def southEastOne (b : Nat) : Nat := shr64 b 7 &&& 0xfefefefefefefefe

/-- `BitBoard::south_west_one`: `(b >> 9) & NOT_FILE_H`. -/
def southWestOne (b : Nat) : Nat := shr64 b 9 &&& 0x7f7f7f7f7f7f7f7f

/-- `BitBoard::king_attacks_mask`. -/
def kingAttacksMask (s : Nat) : Nat :=
  let king := sqBB s
  let a := eastOne king ||| westOne king ||| king
  let attacks := a ||| northOne a ||| southOne a
  attacks ^^^ king

/-- `BitBoard::white_pawn_any_attacks_mask`. -/
def whitePawnAnyAttacksMask (b : Nat) : Nat := northEastOne b ||| northWestOne b

/-- `BitBoard::black_pawn_any_attacks_mask`. -/
def blackPawnAnyAttacksMask (b : Nat) : Nat := southEastOne b ||| southWestOne b


/-! ## Flags (`board/mod.rs` `Flags`) and the identically laid out `State` (`game.rs`).

Bit layout of the `u16`: bits 0-7 en-passant-open files A-H, bit 8 white
queen-side castling right, bit 9 white king-side, bit 10 black queen-side,
bit 11 black king-side, bit 12 whites turn. -/

/-- `Flags::get_bit` / `State::bit`. -/
def flagBit (x bit : Nat) : Bool := ((x >>> bit) &&& 1) = 1

/-- `Flags::set_bit` / `State::set_bit`: `(x & !(1 << bit)) | ((v as u16) << bit)`. -/
def flagSetBit (x bit : Nat) (v : Bool) : Nat :=
  (x &&& (0xffff ^^^ (1 <<< bit))) ||| ((if v then 1 else 0) <<< bit)

/-- `Flags::get_queen_side_castling_right_index`. -/
def queenSideCastlingRightIndex : Side → Nat
  | .white => 8
  | .black => 10

/-- `Flags::get_king_side_castling_right_index`. -/
def kingSideCastlingRightIndex : Side → Nat
  | .white => 9
  | .black => 11

/-- `Flags::get_queen_side_castling_right`. -/
def getQueenSideCastlingRight (x : Nat) (side : Side) : Bool :=
  flagBit x (queenSideCastlingRightIndex side)

/-- `Flags::set_queen_side_castling_right`. -/
def setQueenSideCastlingRight (x : Nat) (side : Side) (v : Bool) : Nat :=
  flagSetBit x (queenSideCastlingRightIndex side) v

/-- `Flags::get_king_side_castling_right`. -/
def getKingSideCastlingRight (x : Nat) (side : Side) : Bool :=
  flagBit x (kingSideCastlingRightIndex side)

/-- `Flags::set_king_side_castling_right`. -/
def setKingSideCastlingRight (x : Nat) (side : Side) (v : Bool) : Nat :=
  flagSetBit x (kingSideCastlingRightIndex side) v

/-- `Flags::get_en_passant_open_files`: files of the set low-eight bits in
ascending order (the source pops them with `tzcnt`), as file indices 0-7. -/
def getEnPassantOpenFiles (x : Nat) : List Nat :=
  (List.range 8).filter (fun i => flagBit x i)

/-- `Flags::reset_en_passant_open_files`: `x &= 0xff00`. -/
def resetEnPassantOpenFiles (x : Nat) : Nat := x &&& 0xff00

/-- `Flags::get_en_passant_open` for a file index. -/
def getEnPassantOpen (x file : Nat) : Bool := flagBit x file

/-- `Flags::set_en_passant_open`. -/
def setEnPassantOpen (x file : Nat) (v : Bool) : Nat := flagSetBit x file v

/-- `Flags::get_whites_turn` (bit 12). -/
def getWhitesTurn (x : Nat) : Bool := flagBit x 12

/-- `Flags::set_whites_turn`. -/
def setWhitesTurn (x : Nat) (v : Bool) : Nat := flagSetBit x 12 v

/-- `Flags::default`: `0b11111000_00000000`. -/
def flagsDefault : Nat := 0b1111100000000000

/-! ## The eight piece bit-sets shared by `board/mod.rs` `Board` and the board
used by `game.rs` (whose struct differs only in carrying flags and clock
alongside; we group the sets so both layers reuse the same accessors). -/

/-- The eight overlapping piece bit-sets of `Board`. -/
structure Bbs where
  black : Nat
  white : Nat
  kings : Nat
  queens : Nat
  rooks : Nat
  bishops : Nat
  knights : Nat
  pawns : Nat
deriving DecidableEq

/-- The all-empty board (`Board::empty`). -/
def Bbs.empty : Bbs := ⟨0, 0, 0, 0, 0, 0, 0, 0⟩

/-- `Board::occupied`: `black | white`. -/
def Bbs.occupied (b : Bbs) : Nat := b.black ||| b.white

/-- `Board::get_pieces_by_side` / `pieces_by_side`. -/
def Bbs.piecesBySide (b : Bbs) : Side → Nat
  | .white => b.white
  | .black => b.black

/-- Piece-kind lookup order of `Board::get_piece_at`: pawn, knight, bishop,
rook, queen, defaulting to king. -/
def Bbs.pieceKindAt (b : Bbs) (s : Nat) : Piece :=
  if b.pawns.testBit s then .pawn
  else if b.knights.testBit s then .knight
  else if b.bishops.testBit s then .bishop
  else if b.rooks.testBit s then .rook
  else if b.queens.testBit s then .queen
  else .king

/-- `Board::get_piece_at` / `piece_at`: side tested white-then-black, then the
piece kind. -/
def Bbs.pieceAt (b : Bbs) (s : Nat) : Option (Side × Piece) :=
  if b.white.testBit s then some (.white, b.pieceKindAt s)
  else if b.black.testBit s then some (.black, b.pieceKindAt s)
  else none

/-- `Board::set_piece`: OR the square into the side set and the kind set
(the destination is not cleared first — faithful to the source). -/
def Bbs.setPiece (b : Bbs) (side : Side) (piece : Piece) (s : Nat) : Bbs :=
  let bb := sqBB s
  let b1 := match side with
    | .white => { b with white := b.white ||| bb }
    | .black => { b with black := b.black ||| bb }
  match piece with
  | .pawn => { b1 with pawns := b1.pawns ||| bb }
  | .knight => { b1 with knights := b1.knights ||| bb }
  | .bishop => { b1 with bishops := b1.bishops ||| bb }
  | .rook => { b1 with rooks := b1.rooks ||| bb }
  | .queen => { b1 with queens := b1.queens ||| bb }
  | .king => { b1 with kings := b1.kings ||| bb }

/-- `Board::clear_piece`: AND the complement of the square into every set
(the source omits `pawns` from the list — faithful: a cleared square keeps
its pawn bit). -/
def Bbs.clearPiece (b : Bbs) (s : Nat) : Bbs :=
  let nbb := not64 (sqBB s)
  { b with
    black := b.black &&& nbb
    white := b.white &&& nbb
    knights := b.knights &&& nbb
    bishops := b.bishops &&& nbb
    rooks := b.rooks &&& nbb
    queens := b.queens &&& nbb
    kings := b.kings &&& nbb }

/-- `Board::get_pieces`: occupied squares in ascending order with their side
and kind. -/
def Bbs.pieces (b : Bbs) : List (Side × Piece × Nat) :=
  (List.range 64).filterMap (fun s => (b.pieceAt s).map (fun sp => (sp.1, sp.2, s)))

/-- `Board::get_king_square`: lowest square of `side-set ∩ kings`. -/
def Bbs.kingSquare (b : Bbs) (side : Side) : Nat :=
  tzcnt64 (b.piecesBySide side &&& b.kings)

/-- `Board::get_ray_attacks`: clip the ray mask at the first blocker. -/
def Bbs.rayAttacks (b : Bbs) (s : Nat) (d : Direction) : Nat :=
  let attacks := rayMask s d
  let blocker := attacks &&& b.occupied
  if blocker ≠ 0 then
    let s2 := if d.negativeDir then bsr64 blocker else tzcnt64 blocker
    attacks ^^^ rayMask s2 d
  else attacks

/-- `Board::diagonal_attacks`. -/
def Bbs.diagonalAttacks (b : Bbs) (s : Nat) : Nat :=
  b.rayAttacks s .northEast ||| b.rayAttacks s .southWest

/-- `Board::anti_diagonal_attacks`. -/
def Bbs.antiDiagonalAttacks (b : Bbs) (s : Nat) : Nat :=
  b.rayAttacks s .northWest ||| b.rayAttacks s .southEast

/-- `Board::file_attacks`. -/
def Bbs.fileAttacks (b : Bbs) (s : Nat) : Nat :=
  b.rayAttacks s .north ||| b.rayAttacks s .south

/-- `Board::rank_attacks`. -/
def Bbs.rankAttacks (b : Bbs) (s : Nat) : Nat :=
  b.rayAttacks s .east ||| b.rayAttacks s .west

/-- `Board::rook_attacks`. -/
def Bbs.rookAttacks (b : Bbs) (s : Nat) : Nat :=
  b.fileAttacks s ||| b.rankAttacks s

/-- `Board::bishop_attacks`. -/
def Bbs.bishopAttacks (b : Bbs) (s : Nat) : Nat :=
  b.diagonalAttacks s ||| b.antiDiagonalAttacks s

/-- `Board::queen_attacks`. -/
def Bbs.queenAttacks (b : Bbs) (s : Nat) : Nat :=
  b.rookAttacks s ||| b.bishopAttacks s

/-- `Board::is_attacked` (`board/mod.rs` lines 304-337).  Note: the pawn test
uses `black_pawn_any_attacks_mask` regardless of `by_side`, exactly as the
source does. -/
def Bbs.isAttacked (b : Bbs) (s : Nat) (bySide : Side) : Bool :=
  let bitboard := sqBB s
  let attackPieces := b.piecesBySide bySide
  let pawns := attackPieces &&& b.pawns
  if blackPawnAnyAttacksMask bitboard &&& pawns ≠ 0 then true
  else if knightAttacksMask s &&& (attackPieces &&& b.knights) ≠ 0 then true
  else if kingAttacksMask s &&& (attackPieces &&& b.kings) ≠ 0 then true
  else if b.bishopAttacks s &&& (attackPieces &&& (b.bishops ||| b.queens)) ≠ 0 then true
  else if b.rookAttacks s &&& (attackPieces &&& (b.rooks ||| b.queens)) ≠ 0 then true
  else false

/-! ## `board/mod.rs` `Board`: flags + bit-sets + halfmove clock, and its
move generation. -/

/-- `Board` of `board/mod.rs` (fields grouped: the eight bit-sets in `bbs`). -/
structure MBoard where
  bbs : Bbs
  flags : Nat
  halfmoveClock : Nat
deriving DecidableEq

/-- `Board::new`: fold the piece list into the bit-sets. -/
def MBoard.new (pieces : List (Side × Piece × Nat)) (flags : Nat) (clock : Nat) : MBoard :=
  { bbs := pieces.foldl (fun b sp =>
      match sp with
      | (side, piece, square) =>
        let bb := sqBB square
        let b1 := match side with
          | .white => { b with white := b.white ||| bb }
          | .black => { b with black := b.black ||| bb }
        match piece with
        | .pawn => { b1 with pawns := b1.pawns ||| bb }
        | .knight => { b1 with knights := b1.knights ||| bb }
        | .bishop => { b1 with bishops := b1.bishops ||| bb }
        | .rook => { b1 with rooks := b1.rooks ||| bb }
        | .queen => { b1 with queens := b1.queens ||| bb }
        | .king => { b1 with kings := b1.kings ||| bb }) Bbs.empty
    flags := flags
    halfmoveClock := clock }

/-- `Board::default`: the standard starting position with `Flags::default`. -/
def MBoard.default : MBoard :=
  { bbs :=
      { black := 0xffff000000000000
        white := 0xffff
        kings := 0x1000000000000010
        queens := 0x800000000000008
        rooks := 0x8100000000000081
        bishops := 0x2400000000000024
        knights := 0x4200000000000042
        pawns := 0xff00000000ff00 }
    flags := flagsDefault
    halfmoveClock := 0 }

/-- `Board::get_side_turn`. -/
def MBoard.sideTurn (b : MBoard) : Side :=
  if getWhitesTurn b.flags then .white else .black

/-- `Ply` (`board/ply.rs`): from, to, and a promotion code 0-4
(0 none, 1 knight, 2 bishop, 3 rook, 4 queen). -/
structure Ply where
  fromSq : Nat
  toSq : Nat
  promoCode : Nat
deriving DecidableEq

/-- The `Option<Piece>` view of a `Ply` promotion code used by
`try_make_pseudo_legal_move` (`ply.promotion()`). -/
def Ply.promotionPiece (p : Ply) : Option Piece :=
  match p.promoCode with
  | 1 => some .knight
  | 2 => some .bishop
  | 3 => some .rook
  | 4 => some .queen
  | _ => none

/-- `Event` as emitted by `board/mod.rs` move application. -/
inductive MEvent where
  | pieceLeftSquare (side : Side) (piece : Piece) (square : Nat)
  | pieceEnteredSquare (side : Side) (piece : Piece) (square : Nat)
  | nextTurn (side : Side)
  | queenSideCastlingRightLost (side : Side)
  | kingSideCastlingRightLost (side : Side)
  | enPassantOpened (file : Nat)
  | enPassantClosed (file : Nat)
deriving DecidableEq

/-- `Board::get_pseudo_legal_moves_from` (`board/mod.rs` lines 677-749),
translated exactly: in particular the pawn branches are computed set-wise from
**all** pawns of the side, single pushes exclude only own pieces, double-push
squares are derived by shifting the single-push set, capture targets intersect
only the opponent **pawns**, and the en-passant fold starts from the empty set
and intersects (`fold(EMPTY, |bb, file| bb & file-mask)`). -/
def MBoard.pseudoLegalMovesFrom (b : MBoard) (fromSq : Nat) : Nat :=
  match b.bbs.pieceAt fromSq with
  | none => 0
  | some (side, piece) =>
    let notOwnPieces := not64 (b.bbs.piecesBySide side)
    match side, piece with
    | _, .bishop => b.bbs.bishopAttacks fromSq &&& notOwnPieces
    | _, .rook => b.bbs.rookAttacks fromSq &&& notOwnPieces
    | _, .queen => b.bbs.queenAttacks fromSq &&& notOwnPieces
    | _, .knight => knightAttacksMask fromSq &&& notOwnPieces
    | _, .king =>
      let notOccupied := not64 b.bbs.occupied
      let king := sqBB fromSq
      let castlingQueenSide :=
        if getQueenSideCastlingRight b.flags side then
          westOne (westOne king &&& notOccupied) &&& notOccupied &&& 0x0404040404040404
        else 0
      let castlingKingSide :=
        if getKingSideCastlingRight b.flags side then
          eastOne (eastOne king &&& notOccupied) &&& notOccupied &&& 0x4040404040404040
        else 0
      (kingAttacksMask fromSq &&& notOwnPieces) ||| castlingKingSide ||| castlingQueenSide
    | .white, .pawn =>
      let blackPawns := b.bbs.black &&& b.bbs.pawns
      let whitePawns := b.bbs.white &&& b.bbs.pawns
      let anyAttacks := whitePawnAnyAttacksMask whitePawns
      let sglTargets := northOne whitePawns &&& notOwnPieces
      let anyTargets := sglTargets ||| (northOne sglTargets &&& 0x00000000ff000000)
      let pasTargets := 0x0000ff0000000000 &&&
        ((getEnPassantOpenFiles b.flags).foldl (fun bb file => bb &&& fileMask file) 0)
      ((anyAttacks &&& (pasTargets ||| blackPawns)) ||| anyTargets) &&& notOwnPieces
    | .black, .pawn =>
      let whitePawns := b.bbs.white &&& b.bbs.pawns
      let blackPawns := b.bbs.black &&& b.bbs.pawns
      let anyAttacks := blackPawnAnyAttacksMask blackPawns
      let sglTargets := southOne blackPawns &&& notOwnPieces
      let anyTargets := sglTargets ||| (southOne sglTargets &&& 0x000000ff00000000)
      let pasTargets := 0x0000000000ff0000 &&&
        ((getEnPassantOpenFiles b.flags).foldl (fun bb file => bb &&& fileMask file) 0)
      ((anyAttacks &&& (pasTargets ||| whitePawns)) ||| anyTargets) &&& notOwnPieces

/-- `Board::try_make_pseudo_legal_move` (`board/mod.rs` lines 422-674).
The mutation sequence on the duplicated board is threaded through lets; the
returned event list preserves the source push order. -/
def MBoard.tryMakePseudoLegalMove (b : MBoard) (ply : Ply) :
    Except Error (MBoard × List MEvent) :=
  match b.bbs.pieceAt ply.fromSq with
  | none => .error .invalidArgument
  | some (side, piece) =>
    if side ≠ b.sideTurn then .error .invalidArgument
    else
      let events0 := (getEnPassantOpenFiles b.flags).map MEvent.enPassantClosed
      let fromSq := ply.fromSq
      let toSq := ply.toSq
      let flags1 := resetEnPassantOpenFiles b.flags
      let opponentSide := side.flip
      let opponentPieces := b.bbs.piecesBySide opponentSide
      match piece with
      | .pawn =>
        let fileFrom := fromSq &&& 7
        let fileTo := toSq &&& 7
        let rankTo := toSq >>> 3
        -- halfmove clock reset for every pawn move
        let clock1 := 0
        if fileFrom ≠ fileTo then
          -- capture (normal or en passant)
          let enPassant := (sqBB toSq &&& opponentPieces) = 0
          let capturedSquare :=
            if enPassant then
              match side with
              | .white => tzcnt64 (southOne (sqBB toSq))
              | .black => tzcnt64 (northOne (sqBB toSq))
            else toSq
          match b.bbs.pieceAt capturedSquare with
          | none => .error .panicE
          | some (_, capturedPiece) =>
            let bbs1 := b.bbs.clearPiece capturedSquare
            let events1 := events0 ++
              [MEvent.pieceLeftSquare opponentSide capturedPiece capturedSquare]
            let bbs2 := (bbs1.clearPiece fromSq).setPiece side piece toSq
            let events2 := events1 ++
              [MEvent.pieceLeftSquare side piece fromSq,
               MEvent.pieceEnteredSquare side piece toSq]
            -- fall through to the promotion check
            if rankTo = 7 ∨ rankTo = 0 then
              match ply.promotionPiece with
              | none => .error .invalidArgument
              | some newPiece =>
                let bbs3 := (bbs2.clearPiece fromSq).setPiece side newPiece toSq
                let events3 := events2 ++
                  [MEvent.pieceLeftSquare side piece fromSq,
                   MEvent.pieceEnteredSquare side newPiece toSq]
                .ok (⟨bbs3, flags1, clock1⟩,
                  events3 ++ [MEvent.nextTurn opponentSide])
            else
              let bbs3 := (bbs2.clearPiece fromSq).setPiece side piece toSq
              let events3 := events2 ++
                [MEvent.pieceLeftSquare side piece fromSq,
                 MEvent.pieceEnteredSquare side piece toSq]
              .ok (⟨bbs3, flags1, clock1⟩, events3 ++ [MEvent.nextTurn opponentSide])
        else
          let rankFrom := fromSq >>> 3
          if (rankFrom = 1 ∧ rankTo = 3) ∨ (rankFrom = 6 ∧ rankTo = 4) then
            -- double push: open en passant file and return early
            let file := fileTo
            let flags2 := setEnPassantOpen flags1 file true
            let events1 := events0 ++ [MEvent.enPassantOpened file]
            let bbs1 := (b.bbs.clearPiece fromSq).setPiece side piece toSq
            let events2 := events1 ++
              [MEvent.pieceLeftSquare side piece fromSq,
               MEvent.pieceEnteredSquare side piece toSq]
            .ok (⟨bbs1, flags2, clock1⟩, events2)
          else
            if rankTo = 7 ∨ rankTo = 0 then
              match ply.promotionPiece with
              | none => .error .invalidArgument
              | some newPiece =>
                let bbs1 := (b.bbs.clearPiece fromSq).setPiece side newPiece toSq
                let events1 := events0 ++
                  [MEvent.pieceLeftSquare side piece fromSq,
                   MEvent.pieceEnteredSquare side newPiece toSq]
                .ok (⟨bbs1, flags1, clock1⟩, events1 ++ [MEvent.nextTurn opponentSide])
            else
              let bbs1 := (b.bbs.clearPiece fromSq).setPiece side piece toSq
              let events1 := events0 ++
                [MEvent.pieceLeftSquare side piece fromSq,
                 MEvent.pieceEnteredSquare side piece toSq]
              .ok (⟨bbs1, flags1, clock1⟩, events1 ++ [MEvent.nextTurn opponentSide])
      | .king =>
        let isCapture := (sqBB toSq &&& opponentPieces) ≠ 0
        let step1 : Except Error (Bbs × List MEvent × Nat) :=
          if isCapture then
            match b.bbs.pieceAt toSq with
            | none => .error .panicE
            | some (_, capturedPiece) =>
              .ok (b.bbs.clearPiece toSq,
                events0 ++ [MEvent.pieceLeftSquare opponentSide capturedPiece toSq],
                0)
          else
            let kingSq : Nat := match side with | .white => 4 | .black => 60
            let ksK : Nat := match side with | .white => 6 | .black => 62
            let ksRFrom : Nat := match side with | .white => 7 | .black => 63
            let ksRTo : Nat := match side with | .white => 5 | .black => 61
            let qsK : Nat := match side with | .white => 2 | .black => 58
            let qsRFrom : Nat := match side with | .white => 0 | .black => 56
            let qsRTo : Nat := match side with | .white => 3 | .black => 59
            if fromSq = kingSq ∧ toSq = ksK then
              .ok ((b.bbs.clearPiece ksRFrom).setPiece side .rook ksRTo,
                events0 ++ [MEvent.pieceLeftSquare side .rook ksRFrom,
                            MEvent.pieceEnteredSquare side .rook ksRTo],
                b.halfmoveClock)
            else if fromSq = kingSq ∧ toSq = qsK then
              .ok ((b.bbs.clearPiece qsRFrom).setPiece side .rook qsRTo,
                events0 ++ [MEvent.pieceLeftSquare side .rook qsRFrom,
                            MEvent.pieceEnteredSquare side .rook qsRTo],
                b.halfmoveClock)
            else
              .ok (b.bbs, events0, b.halfmoveClock)
        match step1 with
        | .error e => .error e
        | .ok (bbs1, events1, clock1) =>
          let pair2 :=
            if getKingSideCastlingRight b.flags side then
              (setKingSideCastlingRight flags1 side false,
               events1 ++ [MEvent.kingSideCastlingRightLost side])
            else (flags1, events1)
          let pair3 :=
            if getQueenSideCastlingRight b.flags side then
              (setQueenSideCastlingRight pair2.1 side false,
               pair2.2 ++ [MEvent.queenSideCastlingRightLost side])
            else pair2
          let bbs2 := (bbs1.clearPiece fromSq).setPiece side piece toSq
          let events3 := pair3.2 ++
            [MEvent.pieceLeftSquare side piece fromSq,
             MEvent.pieceEnteredSquare side piece toSq]
          .ok (⟨bbs2, pair3.1, clock1⟩, events3 ++ [MEvent.nextTurn opponentSide])
      | .rook =>
        let isCapture := (sqBB toSq &&& opponentPieces) ≠ 0
        let step1 : Except Error (Bbs × List MEvent × Nat) :=
          if isCapture then
            match b.bbs.pieceAt toSq with
            | none => .error .panicE
            | some (_, capturedPiece) =>
              .ok (b.bbs.clearPiece toSq,
                events0 ++ [MEvent.pieceLeftSquare opponentSide capturedPiece toSq],
                0)
          else .ok (b.bbs, events0, b.halfmoveClock)
        match step1 with
        | .error e => .error e
        | .ok (bbs1, events1, clock1) =>
          let ksOrigin : Nat := match side with | .white => 7 | .black => 63
          let qsOrigin : Nat := match side with | .white => 0 | .black => 56
          let pair2 :=
            if fromSq = ksOrigin ∧ getKingSideCastlingRight b.flags side then
              (setKingSideCastlingRight flags1 side false,
               events1 ++ [MEvent.kingSideCastlingRightLost side])
            else if fromSq = qsOrigin ∧ getQueenSideCastlingRight b.flags side then
              (setQueenSideCastlingRight flags1 side false,
               events1 ++ [MEvent.queenSideCastlingRightLost side])
            else (flags1, events1)
          let bbs2 := (bbs1.clearPiece fromSq).setPiece side piece toSq
          let events3 := pair2.2 ++
            [MEvent.pieceLeftSquare side piece fromSq,
             MEvent.pieceEnteredSquare side piece toSq]
          .ok (⟨bbs2, pair2.1, clock1⟩, events3 ++ [MEvent.nextTurn opponentSide])
      | _ =>
        -- Knight | Bishop | Queen
        let isCapture := (sqBB toSq &&& opponentPieces) ≠ 0
        let step1 : Except Error (Bbs × List MEvent × Nat) :=
          if isCapture then
            match b.bbs.pieceAt toSq with
            | none => .error .panicE
            | some (_, capturedPiece) =>
              .ok (b.bbs.clearPiece toSq,
                events0 ++ [MEvent.pieceLeftSquare opponentSide capturedPiece toSq],
                0)
          else .ok (b.bbs, events0, b.halfmoveClock)
        match step1 with
        | .error e => .error e
        | .ok (bbs1, events1, clock1) =>
          let bbs2 := (bbs1.clearPiece fromSq).setPiece side piece toSq
          let events2 := events1 ++
            [MEvent.pieceLeftSquare side piece fromSq,
             MEvent.pieceEnteredSquare side piece toSq]
          .ok (⟨bbs2, flags1, clock1⟩, events2 ++ [MEvent.nextTurn opponentSide])

/-- `Board::try_make_move` (`board/mod.rs` lines 222-238): phase-1 membership
check, tentative application, then the king-safety filter on the result. -/
def MBoard.tryMakeMove (b : MBoard) (ply : Ply) : Except Error (MBoard × List MEvent) :=
  if (b.pseudoLegalMovesFrom ply.fromSq &&& sqBB ply.toSq) = 0 then
    .error .illegalMove
  else
    match b.tryMakePseudoLegalMove ply with
    | .error e => .error e
    | .ok (board, events) =>
      let sideMoved := b.sideTurn
      let kingSq := board.bbs.kingSquare sideMoved
      if board.bbs.isAttacked kingSq sideMoved.flip then .error .illegalMove
      else .ok (board, events)

/-! ## Specification-side attack and pawn-destination definitions, used to
compare the source functions against the specification text. -/

/-- Modelled from the spec: `is_attacked` computed "from the target looking
outward" with the **mirrored** pawn-attack mask (spec section 4.2): a white
pawn attacker of `s` sits on the black-pawn-attack squares of `s`, a black
pawn attacker on the white-pawn-attack squares of `s`.  Knight, king and
sliding pieces as in the source. -/
def Bbs.specIsAttacked (b : Bbs) (s : Nat) (bySide : Side) : Bool :=
  let bitboard := sqBB s
  let attackPieces := b.piecesBySide bySide
  let pawns := attackPieces &&& b.pawns
  let pawnAttackers := match bySide with
    | .white => blackPawnAnyAttacksMask bitboard
    | .black => whitePawnAnyAttacksMask bitboard
  (pawnAttackers &&& pawns ≠ 0) ∨
    (knightAttacksMask s &&& (attackPieces &&& b.knights) ≠ 0) ∨
    (kingAttacksMask s &&& (attackPieces &&& b.kings) ≠ 0) ∨
    (b.bishopAttacks s &&& (attackPieces &&& (b.bishops ||| b.queens)) ≠ 0) ∨
    (b.rookAttacks s &&& (attackPieces &&& (b.rooks ||| b.queens)) ≠ 0)

/-- Modelled from the spec (section 4.3, pawn row), for comparison with the
source generator: the destination set of the **single** pawn of `side` at `s`
is its single push to the empty square ahead, its double push two ranks ahead
from the initial rank when both intervening squares are empty, and its two
diagonal attack squares restricted to squares holding an opponent piece or
lying on a currently open en-passant file. -/
def specPawnDestinations (b : Bbs) (s : Nat) (side : Side) (epFiles : List Nat) : Nat :=
  let pawn := sqBB s
  let emptySquares := not64 b.occupied
  let epMask := epFiles.foldl (fun m f => m ||| fileMask f) 0
  match side with
  | .white =>
    let push := northOne pawn &&& emptySquares
    let dbl := if s >>> 3 = 1 then northOne push &&& emptySquares else 0
    let attacks := whitePawnAnyAttacksMask pawn &&& (b.piecesBySide .black ||| epMask)
    push ||| dbl ||| attacks
  | .black =>
    let push := southOne pawn &&& emptySquares
    let dbl := if s >>> 3 = 6 then southOne push &&& emptySquares else 0
    let attacks := blackPawnAnyAttacksMask pawn &&& (b.piecesBySide .white ||| epMask)
    push ||| dbl ||| attacks

/-! ## Concrete positions exhibiting the divergences of the board layer. -/

/-- Position for C1: white king g4 (30); black king a8 (56) and black pawn
f6 (45); white to move, no castling rights, no en-passant files. -/
def c1Board : MBoard :=
  MBoard.new [(.white, .king, 30), (.black, .king, 56), (.black, .pawn, 45)] 0x1000 0

/-- Position for C3: white king e1 (4), white rook a1 (0), white knight
b1 (1); black king h8 (63); white to move with the white queen-side castling
right (bit 8) held. -/
def c3Board : MBoard :=
  MBoard.new [(.white, .king, 4), (.white, .rook, 0), (.white, .knight, 1),
              (.black, .king, 63)] 0x1100 0

/-- Position for C5: white king a1 (0), white pawn e4 (28); black king
h8 (63), black pawn e5 (36); white to move. -/
def c5Board : MBoard :=
  MBoard.new [(.white, .king, 0), (.white, .pawn, 28), (.black, .king, 63),
              (.black, .pawn, 36)] 0x1000 0

/-- Claim C1 (code_bug evidence): from `c1Board`, the king move g4-g5
(squares 30 to 38) is accepted by `Board::try_make_move`, yet in the returned
board the white king on g5 is attacked by the black pawn on f6 under the
specification's attack definition, while the source `is_attacked` (which uses
the black pawn mask for both sides) misses the attack.  So a successful
`make_move` can leave the side that just moved in check. -/
theorem C1_king_left_in_check :
    (c1Board.tryMakeMove ⟨30, 38, 0⟩).toOption.map
      (fun r => (r.1.bbs.kingSquare .white,
                 r.1.bbs.specIsAttacked (r.1.bbs.kingSquare .white) .black,
                 r.1.bbs.isAttacked (r.1.bbs.kingSquare .white) .black))
      = some (38, true, false) := by decide

/-- Claim C2 (code_bug evidence): on the default board the pseudo-legal
destination set computed for the pawn on a2 (square 8) contains b3
(square 17) — the single-push square of the *b2* pawn — because the source
generates the move set of **all** white pawns at once; the specification's
per-pawn destination set for a2 is exactly the two squares a3 (16) and
a4 (24).  The two sets differ. -/
theorem C2_pawn_destinations_diverge :
    (MBoard.default.pseudoLegalMovesFrom 8).testBit 17 = true ∧
    specPawnDestinations MBoard.default.bbs 8 .white
        (getEnPassantOpenFiles MBoard.default.flags) = sqBB 16 ||| sqBB 24 ∧
    MBoard.default.pseudoLegalMovesFrom 8 ≠
      specPawnDestinations MBoard.default.bbs 8 .white
        (getEnPassantOpenFiles MBoard.default.flags) := by decide

/-- Claim C3 (code_bug evidence): from `c3Board`, queen-side castling e1-c1
(squares 4 to 2) is accepted by `Board::try_make_move` although the
intervening square b1 (1) is occupied by the white knight: the source only
tests the two squares west of the king (d1, c1), never b1, and performs no
attack check on the king's start or transit squares.  The returned board has
the king on c1, the rook on d1 and the knight still on b1. -/
theorem C3_castling_through_occupied_b1 :
    c3Board.bbs.occupied.testBit 1 = true ∧
    (c3Board.tryMakeMove ⟨4, 2, 0⟩).toOption.map
      (fun r => (r.1.bbs.kings, r.1.bbs.rooks, r.1.bbs.knights))
      = some (sqBB 2 ||| sqBB 63, sqBB 3, sqBB 1) := by decide

/-- Claim C5 (code_bug evidence): from `c5Board`, the pawn push e4-e5
(squares 28 to 36) onto the square occupied by the black pawn is accepted by
`Board::try_make_move` (single-push targets only exclude *own* pieces, and
`set_piece` does not clear the destination), and the returned board has e5 in
both the white and the black set — the disjointness invariant is violated. -/
theorem C5_board_invariant_broken :
    (c5Board.tryMakeMove ⟨28, 36, 0⟩).toOption.map
      (fun r => r.1.bbs.white &&& r.1.bbs.black) = some (sqBB 36) ∧
    sqBB 36 ≠ 0 := by decide

/-! ## Zobrist hashing (`zobrist.rs` key table and indices; `game.rs` usage). -/

/-- The fixed pseudorandom key table of `zobrist.rs` (781 `u32` entries:
768 piece/side/square keys, 8 en-passant files, 4 castling rights, 1 side to
move). -/
def ZOBRIST_KEYS : Array Nat := #[
  1942003009, 974690339, 4076484053, 1214391555, 1168039459, 3954880283, 1887261166, 2805340334,
  1039171167, 47040222, 126385303, 3891657653, 926154016, 1941842831, 2567947926, 3048722653,
  436937843, 1071069909, 1432607408, 2992120632, 2693551823, 3999648306, 1382917800, 3485586812,
  691143062, 2247128374, 3001267194, 3717451471, 2822514256, 224123184, 1265408935, 2342676329,
  4210599198, 380716068, 1871130916, 90961246, 95588603, 1340812404, 3157421886, 3033879438,
  2941032298, 4281984084, 791069444, 3229902840, 1085056429, 1036299096, 2041737730, 477391279,
  3573485951, 2428063086, 4006380305, 498281196, 2650559380, 698823106, 2526859270, 905028922,
  3828454112, 4062114938, 1731613784, 718598495, 2469044938, 826853482, 3435891183, 1206561059,
  4001785945, 1580667040, 841118202, 3118064198, 3007239732, 2697588702, 3241717207, 2896976768,
  2625446214, 1139534747, 1634309592, 3645057414, 842057323, 220539104, 1682148287, 1826194925,
  1291519953, 579747182, 1953610848, 79336613, 2299208228, 2960719262, 1387255659, 3255974975,
  3611257744, 1759702130, 700015659, 1437676123, 1409757097, 340829619, 1592482521, 1013716944,
  3551652262, 2273679108, 924794576, 2772300873, 2588336972, 909468361, 1620374906, 626756526,
  910008001, 3124734859, 663841270, 2293194911, 538944660, 2611845740, 4099608980, 1711815261,
  4294750720, 4128410476, 2403639072, 2815512103, 2024458660, 940037285, 4023757283, 200240863,
  2831417015, 2264783481, 3505216783, 3380810231, 2134455769, 1878596326, 1126834320, 706940952,
  3421258597, 3249823935, 3496038749, 1458433332, 1381746117, 1391204547, 4129495670, 701555344,
  3678075934, 3919513721, 1018152000, 3358521865, 1098453521, 3766175686, 3788514923, 3704330180,
  1867846352, 3503222807, 3666494920, 1369885308, 3208214799, 823948767, 3646992868, 1111544253,
  404535103, 2475672433, 4067731061, 3471407125, 3523190831, 1541509609, 1446428187, 2270508344,
  3853202269, 2964548409, 3769288709, 1182945927, 328012867, 2128873257, 500329508, 2392918934,
  1110921668, 3626077748, 3034882286, 371430535, 4247885265, 3431420837, 1667051082, 735473848,
  3304269238, 3436092049, 3695503070, 163649931, 2458074100, 1963338182, 2280566306, 3446808973,
  720544228, 111285085, 2323570567, 1853011421, 140037107, 1755786149, 1835930235, 1064017356,
  4129216220, 196425906, 1928098796, 4102997964, 2428756682, 1621273485, 3051087958, 3345660902,
  1835861449, 3611995615, 4122799497, 3997827263, 3350049766, 4049993909, 3223282616, 2007484320,
  935983269, 3789339574, 2957145821, 3055965848, 2806257257, 432880052, 1126984834, 1670507736,
  4055113409, 226181967, 1565145549, 1856069178, 3847211894, 2547431162, 2982482594, 2303595301,
  1871916337, 596740066, 3621647208, 448445975, 1411478801, 3618296476, 644632403, 3955435379,
  1564726818, 1383028689, 1435379756, 1412108725, 3656530592, 2376594121, 179675249, 3213703592,
  4283769767, 2656788170, 699695232, 1510579245, 558399257, 31064803, 3866709247, 3458601848,
  1657272861, 1463510220, 1844499476, 1772313200, 1565639145, 3996115400, 4191519400, 794681510,
  3740433351, 2026179775, 4228218200, 1645888103, 876316018, 1397203474, 298129039, 681329024,
  26210277, 1728471080, 3688381217, 875750524, 4205752235, 2173692201, 3838502371, 3311900884,
  764462908, 127520456, 2342186665, 2240000119, 3910191122, 2529589702, 3880791030, 206354022,
  2438591974, 2584508167, 3583430374, 460440746, 2655957564, 2369033091, 2856340915, 1693076043,
  2321152957, 852808412, 1206783759, 480476928, 3965590587, 3226156208, 21118103, 4199706749,
  2764530386, 2783883919, 1295195544, 2729792514, 385866972, 964768917, 230550668, 4269827214,
  1981581110, 971117672, 1346511909, 2474139887, 3116572519, 570324132, 2228660402, 3113057260,
  1695631712, 1886789841, 1000772865, 48367360, 3879812407, 4259463310, 3577625728, 18613629,
  971517321, 4274174783, 4052895738, 2431456657, 2203553140, 3345169402, 3894997949, 861572100,
  1685690454, 1024368897, 298023905, 2741406378, 3563339263, 1196481911, 3595302333, 3603297915,
  1768583838, 2783181229, 3250302730, 1249806972, 2327832517, 893030764, 264525874, 1569152555,
  3047445695, 3079046245, 2052759526, 3833828976, 2374952697, 4070678605, 238534990, 264298862,
  1196061521, 746356752, 1240977025, 368618913, 3027185624, 426815372, 875091388, 3763023820,
  4107452793, 610950779, 3439405864, 2728680793, 2668021364, 2093030521, 486334561, 4015963872,
  1113087140, 2801426319, 3632791464, 4271441918, 4067385218, 2787746517, 445175918, 232380386,
  4134831302, 2080849244, 1754386390, 112495709, 1259866809, 874189000, 1135076107, 1539691454,
  354561437, 4067652475, 4057813544, 3922535046, 1263184767, 1032412787, 540724737, 1559933735,
  4251627816, 1960531324, 3466654378, 3093348231, 3042857810, 422643440, 424605223, 296744337,
  2557011000, 2008997822, 693146483, 3486437519, 2518837136, 951887810, 1820864461, 939479979,
  2097592300, 957882415, 488296993, 2055870163, 963770112, 1352426313, 3926574426, 2511048387,
  1706998055, 3320297634, 3943062684, 1525901377, 2989334409, 2264393140, 2515718407, 1271756371,
  138143119, 51643617, 1854818891, 4130490374, 923022458, 4168831388, 3200552090, 3096646563,
  3495335162, 2874868322, 1690972388, 3127606884, 124858764, 3581331210, 1996736078, 3038422235,
  620443822, 4195991855, 1673949374, 3208966973, 3666998156, 4034492726, 3907434110, 3964725734,
  38284250, 1667559137, 1587744272, 2418542249, 1773925495, 2966783129, 669351410, 824518505,
  1202601843, 1188804626, 3964967782, 2079913192, 706194718, 2095169054, 3776932048, 1864903972,
  2622648878, 1581857207, 175303527, 3078109944, 4223684060, 1857580227, 676413964, 779269213,
  1803947081, 2841617176, 1849828533, 3447576334, 699836568, 4145216427, 659455824, 2959068012,
  830444492, 3807780294, 1851832815, 2804473686, 1842611746, 74694231, 414438346, 1667062717,
  1220710955, 203314967, 238709240, 2108640105, 2449196068, 4117100008, 116243362, 1668702419,
  2047522721, 4001808889, 1962482506, 3836078388, 3201961, 2898940988, 1580475809, 2074391640,
  3371828045, 4111747256, 2248579464, 2639304252, 3905767865, 1119727231, 481258537, 1369837604,
  360055209, 321548474, 1037035024, 1686381412, 1584788736, 1311465522, 1933321931, 4273966927,
  4009997229, 2754466879, 197642927, 2599710720, 3704078180, 2240175591, 797740404, 513318851,
  1436582145, 3920779415, 1465193651, 3943725068, 2920655887, 3152199518, 1421216623, 3139387502,
  593865014, 1449989416, 3608466360, 3643136674, 1209438496, 304750066, 674473735, 3722475182,
  1266767728, 293597516, 2851296515, 3822349589, 1168496863, 1751283287, 2695490865, 3439111639,
  825937231, 497243397, 2553450708, 1693294832, 1738746412, 1233521988, 187858091, 2322236572,
  244890436, 2522138713, 46244302, 4246313537, 643530656, 3897174335, 1769252821, 316988483,
  3191988266, 194168216, 2716320412, 1355418726, 2632070685, 325865593, 223566820, 296068894,
  4246567234, 2754084406, 1959506124, 1586422739, 615856435, 2816990323, 2964089140, 4126885904,
  3323639088, 416409715, 2737777269, 54049914, 2902455953, 4054498935, 3780588458, 4132643091,
  638327422, 1338562304, 1780101208, 415717705, 2781351661, 1033042505, 163453406, 710278388,
  454211306, 203294494, 709888736, 2639367641, 31088929, 2324274893, 1944169817, 820979112,
  2510135006, 1413189662, 776960456, 1640643882, 1360250075, 596961585, 1815925839, 3932211726,
  2037589618, 2868893771, 2324872756, 2449714202, 821723198, 3881674365, 3576142534, 4100248624,
  4035331610, 1300571397, 1207413101, 23183332, 2278457645, 1101472926, 42702072, 276206558,
  2053390405, 2658579215, 2110923824, 1131164469, 3728511475, 3933968689, 1949432070, 1771558907,
  2361103726, 1171519189, 166691159, 703642330, 2031935954, 1369197138, 891691754, 3657524750,
  3405022555, 780497794, 1247111389, 3471097204, 446001775, 1229294504, 35759868, 1219036607,
  182994319, 800383469, 812345509, 2029659800, 121881032, 3921382503, 4219653514, 872308992,
  1502373345, 2320619898, 890986853, 1374629499, 2796698966, 3669486531, 4076814233, 2407444249,
  2434725747, 2704958396, 3995879091, 3410282841, 830817612, 3151515851, 2114897412, 320389551,
  3896502859, 240959410, 4257993663, 461498033, 2062330353, 2312511768, 210865537, 1574386905,
  3391367871, 1388038878, 1092185153, 3879815746, 695597819, 4108913177, 204479956, 206989775,
  1263888044, 2089850496, 2036571933, 405280886, 2212697960, 486269613, 25331471, 392244806,
  2291724873, 2893488033, 1901461854, 4032830261, 3071651265, 837115266, 564967797, 3400851398,
  1002213739, 1946698567, 200090072, 866130545, 3617993841, 1654281075, 2266582212, 3863600330,
  1436466581, 1495447007, 2678735259, 2217947017, 1287579330, 7811934, 2529679000, 1215689912,
  1112093464, 3273265716, 950604604, 211517989, 2136794007, 480732146, 2360783139, 3391438700,
  3752126210, 62617669, 1399282902, 2923160396, 2232589370, 1286916489, 2734576221, 578492946,
  2521802165, 3363556836, 3069019429, 3560113981, 4022761278, 3321678037, 428095775, 2461882872,
  2481017608, 3690601128, 1561790653, 1902765713, 190711782, 94939157, 47447519, 4113537505,
  3542401824, 3578950769, 4187500080, 564062853, 2883304400, 1436547877, 26954838, 2089032226,
  2802803278, 1430941261, 2170595482, 2247357720, 1553804480, 4126814597, 298693307, 841725043,
  3805793409, 1528232892, 610015325, 182281659, 1045836970]

/-- `ZobristHash::get_piece_hash_key_index` (`zobrist.rs`). -/
def pieceHashKeyIndex (side : Side) (piece : Piece) (square : Nat) : Nat :=
  (match side with | .white => 0 | .black => 384) +
  64 * (match piece with
        | .pawn => 0 | .knight => 1 | .bishop => 2
        | .rook => 3 | .queen => 4 | .king => 5) +
  square

/-- `ZobristHash::get_en_passant_hash_key_index`. -/
def enPassantHashKeyIndex (file : Nat) : Nat := 768 + file

/-- `ZobristHash::get_queen_castling_right_hash_key_index`. -/
def queenCastlingRightHashKeyIndex : Side → Nat
  | .white => 776
  | .black => 777

/-- `ZobristHash::get_king_castling_right_hash_key_index`. -/
def kingCastlingRightHashKeyIndex : Side → Nat
  | .white => 778
  | .black => 779

/-- Key lookup in the table. -/
def zKey (i : Nat) : Nat := ZOBRIST_KEYS.getD i 0

/-- Modelled from the spec: `ZobristHash::flip_piece_position` of the hash
type used by `game.rs` (not under `src/`): XOR the piece/side/square key. -/
def flipPiecePosition (h : Nat) (side : Side) (piece : Piece) (square : Nat) : Nat :=
  h ^^^ zKey (pieceHashKeyIndex side piece square)

/-- Modelled from the spec: `ZobristHash::flip_en_passant_file`. -/
def flipEnPassantFile (h : Nat) (file : Nat) : Nat :=
  h ^^^ zKey (enPassantHashKeyIndex file)

/-- Modelled from the spec: `ZobristHash::flip_queen_castling_right`. -/
def flipQueenCastlingRight (h : Nat) (side : Side) : Nat :=
  h ^^^ zKey (queenCastlingRightHashKeyIndex side)

/-- Modelled from the spec: `ZobristHash::flip_king_castling_right`. -/
def flipKingCastlingRight (h : Nat) (side : Side) : Nat :=
  h ^^^ zKey (kingCastlingRightHashKeyIndex side)

/-- Modelled from the spec: `ZobristHash::flip_next_turn` (index 780). -/
def flipNextTurn (h : Nat) : Nat := h ^^^ zKey 780

/-! ## `game.rs`: `State`, `Game`, move application, FEN. -/

/-- `State::next_turn_side` (bit 12). -/
def stateNextTurnSide (x : Nat) : Side :=
  if flagBit x 12 then .white else .black

/-- `State::set_next_turn_side`. -/
def stateSetNextTurnSide (x : Nat) (side : Side) : Nat :=
  flagSetBit x 12 (match side with | .white => true | .black => false)

/-- `impl Into<ZobristHash> for State` (`game.rs` lines 46-72), translated
exactly: note that the queen-side branch of the source calls
`flip_king_castling_right`, so a held queen-side right contributes the
**king** castling key. -/
def stateIntoZobrist (x : Nat) : Nat :=
  let z : Nat := 0
  let z := if getKingSideCastlingRight x .white then flipKingCastlingRight z .white else z
  let z := if getQueenSideCastlingRight x .white then flipKingCastlingRight z .white else z
  let z := if getKingSideCastlingRight x .black then flipKingCastlingRight z .black else z
  let z := if getQueenSideCastlingRight x .black then flipKingCastlingRight z .black else z
  let z := (getEnPassantOpenFiles x).foldl flipEnPassantFile z
  match stateNextTurnSide x with
  | .black => flipNextTurn z
  | .white => z

/-- Modelled from the spec (section 4.5): the board part of the from-scratch
hash (`impl Into<ZobristHash> for Board`, not under `src/`): XOR of the key
for every occupied square / piece / side. -/
def bbsIntoZobrist (b : Bbs) : Nat :=
  b.pieces.foldl (fun h sp => flipPiecePosition h sp.1 sp.2.1 sp.2.2) 0

/-- `Mov` (`board/mov.rs`): from, to, optional promotion piece. -/
structure Mov where
  fromSq : Nat
  toSq : Nat
  promotion : Option Piece
deriving DecidableEq

/-- `Piece::try_from(u8)` (`dot_chess/board/piece.rs`: 1 pawn .. 6 king). -/
def pieceFromU8 (n : Nat) : Except Error Piece :=
  match n with
  | 1 => .ok .pawn
  | 2 => .ok .knight
  | 3 => .ok .bishop
  | 4 => .ok .rook
  | 5 => .ok .queen
  | 6 => .ok .king
  | _ => .error .invalidArgument

/-- `Mov::encode` (`board/mov.rs` lines 87-102): 4-bit promotion code
(`piece.into()` or 0), 6-bit from, 6-bit to. -/
def movEncode (m : Mov) : Nat :=
  let promo : Nat := match m.promotion with
    | some piece => piece.toU8
    | none => 0
  ((promo &&& 0b1111) <<< 12) ||| ((m.fromSq &&& 0b111111) <<< 6) ||| (m.toSq &&& 0b111111)

/-- `Mov::decode` (`board/mov.rs` lines 68-85). -/
def movDecode (e : Nat) : Except Error Mov :=
  let code := (e >>> 12) &&& 0b1111
  let pm : Except Error (Option Piece) :=
    if code = 0 then .ok none else (pieceFromU8 code).map some
  match pm with
  | .error err => .error err
  | .ok promotion => .ok ⟨(e >>> 6) &&& 0b111111, e &&& 0b111111, promotion⟩

/-- `Game` (`game.rs`). -/
structure Game where
  board : Bbs
  state : Nat
  zobrist : Nat
  halfmoveClock : Nat
  fullmoveNumber : Nat
deriving DecidableEq

/-- `Game::next_turn_side`. -/
def Game.nextTurnSide (g : Game) : Side := stateNextTurnSide g.state

/-- Modelled from the spec: `Board::has_both_kings` of the board used by
`game.rs` (not under `src/`): both sides still have a king on the board. -/
def Bbs.hasBothKings (b : Bbs) : Bool :=
  (b.white &&& b.kings ≠ 0) ∧ (b.black &&& b.kings ≠ 0)

/-- Modelled from the spec: `Board::is_king_attacked` (not under `src/`):
the king square of `side` is attacked by the opponent, with the
specification's attack definition (section 4.2). -/
def Bbs.isKingAttacked (b : Bbs) (side : Side) : Bool :=
  b.specIsAttacked (b.kingSquare side) side.flip

/-- Modelled from the spec: `Board::is_pawn` (not under `src/`). -/
def Bbs.isPawn (b : Bbs) (s : Nat) : Bool := b.pawns.testBit s

/-- Modelled from the spec (section 4.3): `Board::pseudo_legal_moves_from`
of the board used by `game.rs` (not under `src/`), taking the mover's
castling rights and the open en-passant files as arguments.  Phase-1 table:
knight and king use the fixed-offset masks minus own pieces; sliders use the
clipped ray attacks minus own pieces; the king adds the two castling targets,
each gated on the right being held, the king standing on its home square, the
squares between king and rook being empty, and the king's current, transit
and destination squares not being attacked by the opponent; a pawn follows
`specPawnDestinations`. -/
def specBoardPseudoLegalMovesFrom (b : Bbs) (fromSq : Nat)
    (ksRight qsRight : Bool) (epFiles : List Nat) : Nat :=
  match b.pieceAt fromSq with
  | none => 0
  | some (side, piece) =>
    let notOwn := not64 (b.piecesBySide side)
    match piece with
    | .bishop => b.bishopAttacks fromSq &&& notOwn
    | .rook => b.rookAttacks fromSq &&& notOwn
    | .queen => b.queenAttacks fromSq &&& notOwn
    | .knight => knightAttacksMask fromSq &&& notOwn
    | .pawn => specPawnDestinations b fromSq side epFiles
    | .king =>
      let opp := side.flip
      let home : Nat := match side with | .white => 4 | .black => 60
      let emptyAt := fun (s : Nat) => ¬ b.occupied.testBit s
      let safeAt := fun (s : Nat) => ¬ b.specIsAttacked s opp
      let ksTarget :=
        if ksRight ∧ fromSq = home ∧ emptyAt (home + 1) ∧ emptyAt (home + 2) ∧
            safeAt home ∧ safeAt (home + 1) ∧ safeAt (home + 2) then
          sqBB (home + 2)
        else 0
      let qsTarget :=
        if qsRight ∧ fromSq = home ∧ emptyAt (home - 1) ∧ emptyAt (home - 2) ∧
            emptyAt (home - 3) ∧ safeAt home ∧ safeAt (home - 1) ∧ safeAt (home - 2) then
          sqBB (home - 2)
        else 0
      (kingAttacksMask fromSq &&& notOwn) ||| ksTarget ||| qsTarget

/-- `Game::pseudo_legal_moves_from` (`game.rs` lines 614-623): delegate to the
board generator with the turn side's rights and the open en-passant files. -/
def Game.pseudoLegalMovesFrom (g : Game) (fromSq : Nat) : Nat :=
  let side := g.nextTurnSide
  specBoardPseudoLegalMovesFrom g.board fromSq
    (getKingSideCastlingRight g.state side)
    (getQueenSideCastlingRight g.state side)
    (getEnPassantOpenFiles g.state)

/-- `Game::make_pseudo_legal_move` (`game.rs` lines 625-916): origin and turn
checks, en-passant reset, turn switch, piece dispatch with incremental Zobrist
updates, and the captured-rook castling-right fixup.  The two `unwrap`s of the
source (on the captured square lookup) are modelled as `Error.panicE`. -/
def Game.makePseudoLegalMove (g : Game) (mov : Mov) : Except Error Game :=
  match g.board.pieceAt mov.fromSq with
  | none => .error .invalidArgument
  | some (side, piece) =>
    if side ≠ g.nextTurnSide then .error .invalidArgument
    else
      let fromSq := mov.fromSq
      let toSq := mov.toSq
      let opponentSide := side.flip
      let opponentPieces := g.board.piecesBySide opponentSide
      let clock0 := g.halfmoveClock + 1
      let fullmoveNew := match side with
        | .white => g.fullmoveNumber
        | .black => g.fullmoveNumber + 1
      -- reset en passants
      let state1 := resetEnPassantOpenFiles g.state
      let z1 := (getEnPassantOpenFiles g.state).foldl flipEnPassantFile g.zobrist
      -- switch turns
      let state2 := stateSetNextTurnSide state1 opponentSide
      let z2 := flipNextTurn z1
      -- move and capture pieces; each branch yields
      -- (board, state, hash, halfmove clock, is_capture)
      let branch : Except Error (Bbs × Nat × Nat × Nat × Bool) :=
        match piece with
        | .pawn =>
          let fileFrom := fromSq &&& 7
          let rankFrom := fromSq >>> 3
          let fileTo := toSq &&& 7
          let rankTo := toSq >>> 3
          if (rankFrom = 1 ∧ rankTo = 3) ∨ (rankFrom = 6 ∧ rankTo = 4) then
            -- double push: mark open en passant and relocate
            let state3 := setEnPassantOpen state2 fileTo true
            let z3 := flipEnPassantFile z2 fileTo
            let bbs1 := (g.board.clearPiece fromSq).setPiece side piece toSq
            let z4 := flipPiecePosition (flipPiecePosition z3 side piece fromSq)
              side piece toSq
            .ok (bbs1, state3, z4, 0, false)
          else
            -- capture?
            let afterCapture : Except Error (Bbs × Nat × Bool) :=
              if fileFrom ≠ fileTo then
                let enPassant := (sqBB toSq &&& opponentPieces) = 0
                let capturedSquare :=
                  if enPassant then
                    match side with
                    | .white => tzcnt64 (southOne (sqBB toSq))
                    | .black => tzcnt64 (northOne (sqBB toSq))
                  else toSq
                match g.board.pieceAt capturedSquare with
                | none => .error .panicE
                | some (_, capturedPiece) =>
                  .ok (g.board.clearPiece capturedSquare,
                    flipPiecePosition z2 opponentSide capturedPiece capturedSquare,
                    true)
              else .ok (g.board, z2, false)
            match afterCapture with
            | .error e => .error e
            | .ok (bbs1, z3, isCapture) =>
              -- promotion?
              let newPieceE : Except Error Piece :=
                if rankTo = 7 ∨ rankTo = 0 then
                  match mov.promotion with
                  | none => .error .invalidArgument
                  | some p => .ok p
                else .ok piece
              match newPieceE with
              | .error e => .error e
              | .ok newPiece =>
                let bbs2 := (bbs1.clearPiece fromSq).setPiece side newPiece toSq
                let z4 := flipPiecePosition (flipPiecePosition z3 side piece fromSq)
                  side newPiece toSq
                .ok (bbs2, state2, z4, 0, isCapture)
        | .king =>
          -- revoke castling rights if not already
          let pair1 :=
            if getKingSideCastlingRight g.state side then
              (setKingSideCastlingRight state2 side false, flipKingCastlingRight z2 side)
            else (state2, z2)
          let pair2 :=
            if getQueenSideCastlingRight g.state side then
              (setQueenSideCastlingRight pair1.1 side false,
               flipQueenCastlingRight pair1.2 side)
            else pair1
          if (sqBB toSq &&& opponentPieces) ≠ 0 then
            match g.board.pieceAt toSq with
            | none => .error .panicE
            | some (_, capturedPiece) =>
              let bbs1 := g.board.clearPiece toSq
              let z3 := flipPiecePosition pair2.2 opponentSide capturedPiece toSq
              let bbs2 := (bbs1.clearPiece fromSq).setPiece side piece toSq
              let z4 := flipPiecePosition (flipPiecePosition z3 side piece fromSq)
                side piece toSq
              .ok (bbs2, pair2.1, z4, 0, true)
          else
            let kingSq : Nat := match side with | .white => 4 | .black => 60
            let ksK : Nat := match side with | .white => 6 | .black => 62
            let ksRFrom : Nat := match side with | .white => 7 | .black => 63
            let ksRTo : Nat := match side with | .white => 5 | .black => 61
            let qsK : Nat := match side with | .white => 2 | .black => 58
            let qsRFrom : Nat := match side with | .white => 0 | .black => 56
            let qsRTo : Nat := match side with | .white => 3 | .black => 59
            let rookMove : Bbs × Nat :=
              if fromSq = kingSq ∧ toSq = ksK then
                ((g.board.clearPiece ksRFrom).setPiece side .rook ksRTo,
                 flipPiecePosition (flipPiecePosition pair2.2 side .rook ksRFrom)
                   side .rook ksRTo)
              else if fromSq = kingSq ∧ toSq = qsK then
                ((g.board.clearPiece qsRFrom).setPiece side .rook qsRTo,
                 flipPiecePosition (flipPiecePosition pair2.2 side .rook qsRFrom)
                   side .rook qsRTo)
              else (g.board, pair2.2)
            let bbs2 := (rookMove.1.clearPiece fromSq).setPiece side piece toSq
            let z4 := flipPiecePosition (flipPiecePosition rookMove.2 side piece fromSq)
              side piece toSq
            .ok (bbs2, pair2.1, z4, clock0, false)
        | .rook =>
          let afterCapture : Except Error (Bbs × Nat × Nat × Bool) :=
            if (sqBB toSq &&& opponentPieces) ≠ 0 then
              match g.board.pieceAt toSq with
              | none => .error .panicE
              | some (_, capturedPiece) =>
                .ok (g.board.clearPiece toSq,
                  flipPiecePosition z2 opponentSide capturedPiece toSq, 0, true)
            else .ok (g.board, z2, clock0, false)
          match afterCapture with
          | .error e => .error e
          | .ok (bbs1, z3, clock1, isCapture) =>
            let ksOrigin : Nat := match side with | .white => 7 | .black => 63
            let qsOrigin : Nat := match side with | .white => 0 | .black => 56
            let pair1 :=
              if fromSq = ksOrigin ∧ getKingSideCastlingRight g.state side then
                (setKingSideCastlingRight state2 side false, flipKingCastlingRight z3 side)
              else if fromSq = qsOrigin ∧ getQueenSideCastlingRight g.state side then
                (setQueenSideCastlingRight state2 side false, flipQueenCastlingRight z3 side)
              else (state2, z3)
            let bbs2 := (bbs1.clearPiece fromSq).setPiece side piece toSq
            let z4 := flipPiecePosition (flipPiecePosition pair1.2 side piece fromSq)
              side piece toSq
            .ok (bbs2, pair1.1, z4, clock1, isCapture)
        | _ =>
          -- Knight | Bishop | Queen
          let afterCapture : Except Error (Bbs × Nat × Nat × Bool) :=
            if (sqBB toSq &&& opponentPieces) ≠ 0 then
              match g.board.pieceAt toSq with
              | none => .error .panicE
              | some (_, capturedPiece) =>
                .ok (g.board.clearPiece toSq,
                  flipPiecePosition z2 opponentSide capturedPiece toSq, 0, true)
            else .ok (g.board, z2, clock0, false)
          match afterCapture with
          | .error e => .error e
          | .ok (bbs1, z3, clock1, isCapture) =>
            let bbs2 := (bbs1.clearPiece fromSq).setPiece side piece toSq
            let z4 := flipPiecePosition (flipPiecePosition z3 side piece fromSq)
              side piece toSq
            .ok (bbs2, state2, z4, clock1, isCapture)
      match branch with
      | .error e => .error e
      | .ok (bbs3, state3, z3, clock3, isCapture) =>
        -- captured piece on the opponent rook origin loses that wing's right
        let opQsRookOrigin : Nat := match opponentSide with | .white => 0 | .black => 56
        let opKsRookOrigin : Nat := match opponentSide with | .white => 7 | .black => 63
        let pairF :=
          if isCapture then
            if toSq = opQsRookOrigin ∧ getQueenSideCastlingRight state3 opponentSide then
              (setQueenSideCastlingRight state3 opponentSide false,
               flipQueenCastlingRight z3 opponentSide)
            else if toSq = opKsRookOrigin ∧ getKingSideCastlingRight state3 opponentSide then
              (setKingSideCastlingRight state3 opponentSide false,
               flipKingCastlingRight z3 opponentSide)
            else (state3, z3)
          else (state3, z3)
        .ok ⟨bbs3, pairF.1, pairF.2, clock3, fullmoveNew⟩

/-- `Game::make_move` (`game.rs` lines 432-453): pseudo-legality membership
test (IllegalMove on failure), tentative application, then the king-safety
filter (IllegalMove when the mover's king ends up attacked). -/
def Game.makeMove (g : Game) (mov : Mov) : Except Error Game :=
  if (g.pseudoLegalMovesFrom mov.fromSq &&& sqBB mov.toSq) = 0 then
    .error .illegalMove
  else
    match g.makePseudoLegalMove mov with
    | .error e => .error e
    | .ok g2 =>
      if g2.board.isKingAttacked g.nextTurnSide then .error .illegalMove
      else .ok g2

/-- `Game::PROMO_PIECES` (`game.rs`): Knight, Queen, Rook, Bishop. -/
def PROMO_PIECES : List Piece := [.knight, .queen, .rook, .bishop]

/-- The `offer_psuedo_move` closure of `Game::legal_moves_from` (`game.rs`
lines 381-395): keep the move only if the tentative board still has both
kings and the mover's king is not attacked.  The source `unwrap`s the move
application; the error branch (a Rust panic) is modelled as contributing no
move, and the theorems about this function carry hypotheses that keep it
unreachable. -/
def Game.offerPseudoMove (g : Game) (mov : Mov) : Option Mov :=
  match g.makePseudoLegalMove mov with
  | .error _ => none
  | .ok g2 =>
    if ¬ g2.board.hasBothKings then none
    else if g2.board.isKingAttacked g.nextTurnSide then none
    else some mov

/-- Squares of a bit-set in ascending order (the iteration order of the
source, which pops squares with `tzcnt`). -/
def bbSquares (bb : Nat) : List Nat :=
  (List.range 64).filter (fun i => bb.testBit i)

/-- `Game::legal_moves_from` (`game.rs` lines 377-416): for each pseudo-legal
destination, offer either the four promotion moves (pawn reaching rank 8 or
rank 1) or the single plain move. -/
def Game.legalMovesFrom (g : Game) (fromSq : Nat) : List Mov :=
  let isPawnF := g.board.isPawn fromSq
  (bbSquares (g.pseudoLegalMovesFrom fromSq)).flatMap (fun toSq =>
    let isPromo := if toSq >>> 3 = 7 ∨ toSq >>> 3 = 0 then isPawnF else false
    if isPromo then
      PROMO_PIECES.filterMap (fun p => g.offerPseudoMove ⟨fromSq, toSq, some p⟩)
    else (g.offerPseudoMove ⟨fromSq, toSq, none⟩).toList)

/-- Per-piece material score of `Game::has_sufficient_mating_material`:
knight or bishop 1, pawn, rook or queen 2, king 0. -/
def pieceScore : Piece → Nat
  | .knight | .bishop => 1
  | .pawn | .rook | .queen => 2
  | .king => 0

/-- The accumulation loop of `Game::has_sufficient_mating_material`
(`game.rs` lines 341-365), with its early exit as soon as either side's
score exceeds 1. -/
def matScoreLoop : List (Side × Piece × Nat) → Nat → Nat → Bool
  | [], _, _ => false
  | (side, piece, _) :: rest, w, b =>
    let w2 := match side with | .white => w + pieceScore piece | .black => w
    let b2 := match side with | .white => b | .black => b + pieceScore piece
    if w2 > 1 ∨ b2 > 1 then true else matScoreLoop rest w2 b2

/-- `Game::has_sufficient_mating_material`. -/
def Game.hasSufficientMatingMaterial (g : Game) : Bool :=
  matScoreLoop g.board.pieces 0 0

/-- Total material score of one side over a piece list (the loop's final
accumulator value, with no early exit). -/
def sideScore (side : Side) : List (Side × Piece × Nat) → Nat
  | [] => 0
  | (s, p, _) :: rest => (if s = side then pieceScore p else 0) + sideScore side rest

/-! ## FEN import and export (`game.rs` `apply_fen` / `fen`). -/

/-- `Piece` into `char` (`dotchess/board/piece.rs`): lowercase letter. -/
def pieceChar : Piece → Char
  | .pawn => 'p'
  | .knight => 'n'
  | .bishop => 'b'
  | .rook => 'r'
  | .queen => 'q'
  | .king => 'k'

/-- `Piece::try_from(char)` (`dotchess/board/piece.rs`), on the lowercased
character. -/
def pieceFromChar (c : Char) : Except Error Piece :=
  match c.toLower with
  | 'p' => .ok .pawn
  | 'r' => .ok .rook
  | 'n' => .ok .knight
  | 'b' => .ok .bishop
  | 'q' => .ok .queen
  | 'k' => .ok .king
  | _ => .error .invalidArgument

/-- `File` into `char` (`board/file.rs`). -/
def fileChar (f : Nat) : Char :=
  match f with
  | 0 => 'a' | 1 => 'b' | 2 => 'c' | 3 => 'd'
  | 4 => 'e' | 5 => 'f' | 6 => 'g' | _ => 'h'

/-- `File::try_from(char)` (`board/file.rs`), on the lowercased character. -/
def fileFromChar (c : Char) : Except Error Nat :=
  match c.toLower with
  | 'a' => .ok 0 | 'b' => .ok 1 | 'c' => .ok 2 | 'd' => .ok 3
  | 'e' => .ok 4 | 'f' => .ok 5 | 'g' => .ok 6 | 'h' => .ok 7
  | _ => .error .invalidArgument

/-- Decimal digits of a number, as written by `write!("{}", n)`. -/
def natChars (n : Nat) : List Char := (Nat.repr n).toList

/-- One rank of `Game::fen` (`game.rs` lines 222-260): pieces as letters
(upper for white, lower for black), runs of empty squares as digit counts,
flushed before each piece and at the end of the rank. -/
def fenRank (b : Bbs) (irank : Nat) : List Char :=
  let step := fun (acc : List Char × Nat) (ifile : Nat) =>
    match b.pieceAt (irank * 8 + ifile) with
    | some (side, piece) =>
      let c := pieceChar piece
      let c := match side with | .white => c.toUpper | .black => c.toLower
      let flushed := if acc.2 > 0 then acc.1 ++ natChars acc.2 else acc.1
      (flushed ++ [c], 0)
    | none => (acc.1, acc.2 + 1)
  let r := (List.range 8).foldl step ([], 0)
  if r.2 > 0 then r.1 ++ natChars r.2 else r.1

/-- `Game::fen` (`game.rs` lines 215-323), producing the FEN string: ranks 8
down to 1 separated by slashes, side to move, castling rights in the order
K Q k q (or a dash), en-passant squares (file letter plus rank 6 when white
is to move, rank 3 when black is, or a dash), halfmove clock and fullmove
number.  The `core::fmt` failure path cannot trigger, so the result is the
plain string. -/
def Game.fenString (g : Game) : String :=
  let posChars :=
    List.intercalate ['/'] (((List.range 8).reverse).map (fenRank g.board))
  let turnChar : Char := match g.nextTurnSide with | .white => 'w' | .black => 'b'
  let castl :=
    (if getKingSideCastlingRight g.state .white then ['K'] else []) ++
    (if getQueenSideCastlingRight g.state .white then ['Q'] else []) ++
    (if getKingSideCastlingRight g.state .black then ['k'] else []) ++
    (if getQueenSideCastlingRight g.state .black then ['q'] else [])
  let castl := if castl.isEmpty then ['-'] else castl
  let rankChar : Char := match g.nextTurnSide with | .white => '6' | .black => '3'
  let eps := (getEnPassantOpenFiles g.state).flatMap (fun f => [fileChar f, rankChar])
  let eps := if eps.isEmpty then ['-'] else eps
  String.mk (posChars ++ [' ', turnChar, ' '] ++ castl ++ [' '] ++ eps ++
    [' '] ++ natChars g.halfmoveClock ++ [' '] ++ natChars g.fullmoveNumber)

/-- The position loop of `Game::apply_fen` (`game.rs` lines 470-510): a `u8`
running index starting at 56, decremented by 16 on a slash (with `u8` wrap),
advanced by digit counts, placing a piece per letter; stops at the first
whitespace character. -/
def parseFenPosition : List Char → Nat → Bbs → Except Error (Bbs × List Char)
  | [], _, _ => .error .invalidArgument
  | c :: rest, index, b =>
    if c.isWhitespace then .ok (b, rest)
    else if c = '/' then parseFenPosition rest ((index + 256 - 16) % 256) b
    else if c.isDigit then parseFenPosition rest ((index + (c.toNat - 48)) % 256) b
    else if c.isAlpha then
      match pieceFromChar c with
      | .error e => .error e
      | .ok piece =>
        let side := if c.isUpper then Side.white else Side.black
        parseFenPosition rest ((index + 1) % 256) (b.setPiece side piece index)
    else .error .invalidArgument

/-- The castling-rights loop of `Game::apply_fen` (lines 530-561). -/
def parseFenCastling : List Char → Nat → Except Error (Nat × List Char)
  | [], _ => .error .invalidArgument
  | c :: rest, state =>
    if c.isWhitespace then .ok (state, rest)
    else if c = '-' then parseFenCastling rest state
    else if c.isAlpha then
      let side := if c.isUpper then Side.white else Side.black
      match c.toLower with
      | 'q' => parseFenCastling rest (setQueenSideCastlingRight state side true)
      | 'k' => parseFenCastling rest (setKingSideCastlingRight state side true)
      | _ => .error .invalidArgument
    else .error .invalidArgument

/-- The en-passant loop of `Game::apply_fen` (lines 564-585): digits and
dashes are skipped, a letter opens that file. -/
def parseFenEnPassant : List Char → Nat → Except Error (Nat × List Char)
  | [], _ => .error .invalidArgument
  | c :: rest, state =>
    if c.isWhitespace then .ok (state, rest)
    else if c.isDigit ∨ c = '-' then parseFenEnPassant rest state
    else if c.isAlpha then
      match fileFromChar c.toLower with
      | .error e => .error e
      | .ok f => parseFenEnPassant rest (setEnPassantOpen state f true)
    else .error .invalidArgument

/-- `Game::apply_fen` (`game.rs` lines 457-612).  Note the clock parsing of
the source: the halfmove clock is the single next character (`nth(0)`)
converted as one digit, and the fullmove number skips one character and
converts the next (`nth(1)`); remaining characters are ignored. -/
def applyFen (fen : String) : Except Error (Bbs × Nat × Nat × Nat) :=
  match parseFenPosition fen.toList 56 Bbs.empty with
  | .error e => .error e
  | .ok (board, rest1) =>
    match rest1 with
    | [] => .error .invalidArgument
    | c :: rest2 =>
      let sideE : Except Error Side :=
        if c = 'w' then .ok .white
        else if c = 'b' then .ok .black
        else .error .invalidArgument
      match sideE with
      | .error e => .error e
      | .ok side =>
        let state0 := stateSetNextTurnSide 0 side
        -- `advance_by(1)` over the separating character
        match rest2 with
        | [] => .error .invalidArgument
        | _ :: rest3 =>
          match parseFenCastling rest3 state0 with
          | .error e => .error e
          | .ok (state1, rest4) =>
            match parseFenEnPassant rest4 state1 with
            | .error e => .error e
            | .ok (state2, rest5) =>
              match rest5 with
              | [] => .error .invalidArgument
              | h :: rest6 =>
                if ¬ h.isDigit then .error .invalidArgument
                else
                  let halfmove := h.toNat - 48
                  match rest6 with
                  | [] => .error .invalidArgument
                  | _ :: [] => .error .invalidArgument
                  | _ :: f :: _ =>
                    if ¬ f.isDigit then .error .invalidArgument
                    else .ok (board, state2, halfmove, f.toNat - 48)

/-- `Game::new` (`game.rs` lines 188-213): parse the FEN and take the XOR of
the board hash and the state hash as the initial Zobrist value. -/
def gameNew (fen : String) : Except Error Game :=
  match applyFen fen with
  | .error e => .error e
  | .ok (board, state, halfmoveClock, fullmoveNumber) =>
    .ok ⟨board, state, bbsIntoZobrist board ^^^ stateIntoZobrist state,
         halfmoveClock, fullmoveNumber⟩

/-- `Game::FEN_NEW_GAME`. -/
def FEN_NEW_GAME : String := "rnbqkbnr/pppppppp/8/8/8/8/PPPPPPPP/RNBQKBNR w KQkq - 0 1"

instance {ε α : Type} [DecidableEq ε] [DecidableEq α] : DecidableEq (Except ε α) :=
  fun x y =>
  match x, y with
  | .ok a, .ok b =>
    if h : a = b then .isTrue (by rw [h]) else .isFalse (fun hc => h (Except.ok.inj hc))
  | .error a, .error b =>
    if h : a = b then .isTrue (by rw [h]) else .isFalse (fun hc => h (Except.error.inj hc))
  | .ok _, .error _ => .isFalse (fun hc => Except.noConfusion hc)
  | .error _, .ok _ => .isFalse (fun hc => Except.noConfusion hc)

/-- The standard starting `Game` (junk fallback is never taken: `gameNew` on
`FEN_NEW_GAME` succeeds). -/
def startGame : Game :=
  (gameNew FEN_NEW_GAME).toOption.getD ⟨Bbs.empty, 0, 0, 0, 0⟩

/-- FEN for C4: the starting position without the a2 pawn, so that the white
queen-side rook can move at once. -/
def c4Fen : String := "rnbqkbnr/pppppppp/8/8/8/8/1PPPPPPP/RNBQKBNR w KQkq - 0 1"

/-- The rook move a1-a2 (squares 0 to 8). -/
def c4Mov : Mov := ⟨0, 8, none⟩

/-- FEN for C6: the starting position with fullmove number 10 — a
well-formed FEN in canonical form. -/
def c6Fen : String := "rnbqkbnr/pppppppp/8/8/8/8/PPPPPPPP/RNBQKBNR w KQkq - 0 10"

set_option maxRecDepth 4000 in
/-- Claim C4 (code_bug evidence): starting from `c4Fen`, the accepted rook
move a1-a2 revokes the white queen-side castling right; the incrementally
updated hash of the resulting game differs from the hash computed from
scratch on the very same resulting position (obtained by re-parsing the
game's own FEN): board, state and counters agree, the Zobrist values do not.
The from-scratch state hash (`impl Into<ZobristHash> for State`) flips the
**king**-castling key for a held queen-side right, while the incremental
update flips the queen-castling key. -/
theorem C4_zobrist_mismatch :
    ((gameNew c4Fen).bind (fun g0 => (g0.makeMove c4Mov).bind (fun g1 =>
      (gameNew g1.fenString).map (fun g2 =>
        (decide (g1.board = g2.board), decide (g1.state = g2.state),
         decide (g1.halfmoveClock = g2.halfmoveClock),
         decide (g1.fullmoveNumber = g2.fullmoveNumber),
         decide (g1.zobrist = g2.zobrist)))))).toOption
      = some (true, true, true, true, false) := by decide

set_option maxRecDepth 4000 in
/-- Claim C6 (code_bug evidence): `c6Fen` is parsed successfully, but the
fullmove field "10" is read as the single digit 1 (`apply_fen` consumes one
character per counter), so serializing back yields the starting FEN with
fullmove 1, not the input: the round-trip fails on a canonical well-formed
FEN. -/
theorem C6_fen_roundtrip_fails :
    (gameNew c6Fen).toOption.map Game.fenString = some FEN_NEW_GAME ∧
    (gameNew c6Fen).toOption.map Game.fullmoveNumber = some 1 ∧
    FEN_NEW_GAME ≠ c6Fen := by decide

set_option maxRecDepth 4000 in
/-- Claim C7 counterexample: in the starting position the origin square a3
(16) is empty, and `make_move` of a3-a4 fails with `IllegalMove` — not with
`InvalidArgument` as the claim states for an empty origin square: the
pseudo-legality membership test runs first and an empty origin has an empty
pseudo-legal set. -/
theorem C7_counterexample_empty_origin :
    (gameNew FEN_NEW_GAME).toOption.map (fun g =>
      (g.board.pieceAt 16, (g.makeMove ⟨16, 24, none⟩).toOption.isNone,
       decide (g.makeMove ⟨16, 24, none⟩ = .error .illegalMove),
       decide (g.makeMove ⟨16, 24, none⟩ = .error .invalidArgument)))
      = some (none, true, true, false) := by decide

/-- The early-exit accumulation loop of `has_sufficient_mating_material`
computes exactly "some side's total score exceeds 1", provided both
accumulators are still at most 1 on entry (as they are at the initial call
with 0, 0). -/
theorem matScoreLoop_characterization (l : List (Side × Piece × Nat)) :
    ∀ w b, w ≤ 1 → b ≤ 1 →
      (matScoreLoop l w b = true ↔
        1 < w + sideScore .white l ∨ 1 < b + sideScore .black l) := by
  induction l with
  | nil =>
    intro w b hw hb
    simp only [matScoreLoop, sideScore]
    constructor
    · intro hc; exact absurd hc (by simp)
    · intro hc; omega
  | cons hd tl ih =>
    intro w b hw hb
    obtain ⟨s, p, sq⟩ := hd
    cases s with
    | white =>
      simp only [matScoreLoop, sideScore, eq_self_iff_true, if_true, reduceCtorEq,
        if_false]
      by_cases h : 1 < w + pieceScore p ∨ 1 < b
      · rw [if_pos h]
        simp only [true_iff]
        omega
      · rw [if_neg h]
        rw [ih (w + pieceScore p) b (by omega) (by omega)]
        omega
    | black =>
      simp only [matScoreLoop, sideScore, eq_self_iff_true, if_true, reduceCtorEq,
        if_false]
      by_cases h : 1 < w ∨ 1 < b + pieceScore p
      · rw [if_pos h]
        simp only [true_iff]
        omega
      · rw [if_neg h]
        rw [ih w (b + pieceScore p) (by omega) (by omega)]
        omega

/-- Claim C8: `has_sufficient_mating_material` scores each side one point per
knight or bishop and two per pawn, rook or queen (kings nothing), and
returns `false` — material judged insufficient — exactly when both sides'
total scores are at most 1. -/
theorem C8_sufficient_material (g : Game) :
    g.hasSufficientMatingMaterial = false ↔
      sideScore .white g.board.pieces ≤ 1 ∧ sideScore .black g.board.pieces ≤ 1 := by
  have h := matScoreLoop_characterization g.board.pieces 0 0 (by omega) (by omega)
  unfold Game.hasSufficientMatingMaterial
  have h2 : matScoreLoop g.board.pieces 0 0 = false ↔
      ¬ (1 < 0 + sideScore .white g.board.pieces ∨
         1 < 0 + sideScore .black g.board.pieces) := by
    rw [← h]
    cases matScoreLoop g.board.pieces 0 0 <;> simp
  rw [h2]
  omega

set_option maxHeartbeats 4000000 in
/-- Claim C9: packing a move with from and to in 0-63 and promotion absent or
one of knight, bishop, rook, queen into the 16-bit form and decoding returns
the original move. -/
theorem C9_mov_roundtrip (f t : Nat) (p : Option Piece) (hf : f < 64) (ht : t < 64)
    (hp : p = none ∨ p = some .knight ∨ p = some .bishop ∨
          p = some .rook ∨ p = some .queen) :
    movDecode (movEncode ⟨f, t, p⟩) = .ok ⟨f, t, p⟩ := by
  have H : ∀ q ∈ [none, some Piece.knight, some Piece.bishop,
                  some Piece.rook, some Piece.queen],
      ∀ a, a < 64 → ∀ c, c < 64 →
        movDecode (movEncode ⟨a, c, q⟩) = .ok ⟨a, c, q⟩ := by decide
  rcases hp with h | h | h | h | h <;> subst h <;>
    exact H _ (by simp) f hf t ht

/-- Witness for C9 at a concrete move. -/
theorem C9_mov_roundtrip_witness :
    (3 : Nat) < 64 ∧ (17 : Nat) < 64 ∧
    movDecode (movEncode ⟨3, 17, some .queen⟩) = .ok ⟨3, 17, some .queen⟩ :=
  ⟨by decide, by decide,
   C9_mov_roundtrip 3 17 (some .queen) (by decide) (by decide) (by simp)⟩

end DotChess

namespace DotChess

/-- The membership test of `make_move`: the destination lies in the origin
square's pseudo-legal destination set. -/
def Game.movIsPseudoLegal (g : Game) (m : Mov) : Prop :=
  (g.pseudoLegalMovesFrom m.fromSq &&& sqBB m.toSq) ≠ 0

/-- The origin square holds a piece of the side that is not to move. -/
def Game.originWrongSide (g : Game) (m : Mov) : Prop :=
  ∃ s pc, g.board.pieceAt m.fromSq = some (s, pc) ∧ s ≠ g.nextTurnSide

/-- A promotion piece is required but absent: the origin holds the mover's
pawn, the move is not a double push, the destination lies on rank 8 or
rank 1, and the move carries no promotion piece. -/
def Game.promotionMissing (g : Game) (m : Mov) : Prop :=
  g.board.pieceAt m.fromSq = some (g.nextTurnSide, .pawn) ∧
  ¬ ((m.fromSq >>> 3 = 1 ∧ m.toSq >>> 3 = 3) ∨ (m.fromSq >>> 3 = 6 ∧ m.toSq >>> 3 = 4)) ∧
  (m.toSq >>> 3 = 7 ∨ m.toSq >>> 3 = 0) ∧ m.promotion = none

/-- `make_pseudo_legal_move` returns `InvalidArgument` exactly when the
origin square is empty, the piece there belongs to the wrong side, or a
required promotion piece is missing (on inputs where its internal `unwrap`s
succeed). -/
theorem mpm_invalid_iff (g : Game) (m : Mov)
    (hpanic : g.makePseudoLegalMove m ≠ .error .panicE) :
    (g.makePseudoLegalMove m = .error .invalidArgument ↔
      g.board.pieceAt m.fromSq = none ∨ g.originWrongSide m ∨ g.promotionMissing m) := by
  unfold Game.makePseudoLegalMove at hpanic ⊢
  rcases hP : g.board.pieceAt m.fromSq with _ | ⟨s, pc⟩
  · simp [hP, Game.originWrongSide, Game.promotionMissing]
  · simp only [hP] at hpanic ⊢
    by_cases hs : s = g.nextTurnSide
    · subst hs
      simp only [ne_eq, not_true_eq_false, not_false_eq_true, if_true, if_neg, ite_false]
        at hpanic ⊢
      cases pc with
      | pawn =>
        simp only [Game.originWrongSide, Game.promotionMissing, hP]
        by_cases hdp : ((m.fromSq >>> 3 = 1 ∧ m.toSq >>> 3 = 3) ∨
                        (m.fromSq >>> 3 = 6 ∧ m.toSq >>> 3 = 4))
        · simp [hdp]
        · by_cases hcap : (m.fromSq &&& 7) = (m.toSq &&& 7)
          · by_cases hr : (m.toSq >>> 3 = 7 ∨ m.toSq >>> 3 = 0)
            · rcases hpr : m.promotion with _ | p <;> simp [hdp, hcap, hr, hpr]
            · simp [hdp, hcap, hr]
          · cases hside : g.nextTurnSide with
            | white =>
              simp only [hside, Side.flip] at hpanic ⊢
              by_cases hep : (sqBB m.toSq &&& g.board.piecesBySide Side.black) = 0
              · rcases hT : g.board.pieceAt (tzcnt64 (southOne (sqBB m.toSq)))
                  with _ | ⟨s2, cp⟩
                · simp [hdp, hcap, hep, hT] at hpanic
                · by_cases hr : (m.toSq >>> 3 = 7 ∨ m.toSq >>> 3 = 0)
                  · rcases hpr : m.promotion with _ | p <;>
                      simp [hdp, hcap, hep, hT, hr, hpr, hP, hside]
                  · simp [hdp, hcap, hep, hT, hr, hP, hside]
              · rcases hT : g.board.pieceAt m.toSq with _ | ⟨s2, cp⟩
                · simp [hdp, hcap, hep, hT] at hpanic
                · by_cases hr : (m.toSq >>> 3 = 7 ∨ m.toSq >>> 3 = 0)
                  · rcases hpr : m.promotion with _ | p <;>
                      simp [hdp, hcap, hep, hT, hr, hpr, hP, hside]
                  · simp [hdp, hcap, hep, hT, hr, hP, hside]
            | black =>
              simp only [hside, Side.flip] at hpanic ⊢
              by_cases hep : (sqBB m.toSq &&& g.board.piecesBySide Side.white) = 0
              · rcases hT : g.board.pieceAt (tzcnt64 (northOne (sqBB m.toSq)))
                  with _ | ⟨s2, cp⟩
                · simp [hdp, hcap, hep, hT] at hpanic
                · by_cases hr : (m.toSq >>> 3 = 7 ∨ m.toSq >>> 3 = 0)
                  · rcases hpr : m.promotion with _ | p <;>
                      simp [hdp, hcap, hep, hT, hr, hpr, hP, hside]
                  · simp [hdp, hcap, hep, hT, hr, hP, hside]
              · rcases hT : g.board.pieceAt m.toSq with _ | ⟨s2, cp⟩
                · simp [hdp, hcap, hep, hT] at hpanic
                · by_cases hr : (m.toSq >>> 3 = 7 ∨ m.toSq >>> 3 = 0)
                  · rcases hpr : m.promotion with _ | p <;>
                      simp [hdp, hcap, hep, hT, hr, hpr, hP, hside]
                  · simp [hdp, hcap, hep, hT, hr, hP, hside]
      | knight =>
        simp only [Game.originWrongSide, Game.promotionMissing, hP]
        by_cases hc : sqBB m.toSq &&& g.board.piecesBySide g.nextTurnSide.flip = 0
        · simp [hc]
        · rcases hT : g.board.pieceAt m.toSq with _ | ⟨s2, cp⟩ <;> simp [hc, hT]
      | bishop =>
        simp only [Game.originWrongSide, Game.promotionMissing, hP]
        by_cases hc : sqBB m.toSq &&& g.board.piecesBySide g.nextTurnSide.flip = 0
        · simp [hc]
        · rcases hT : g.board.pieceAt m.toSq with _ | ⟨s2, cp⟩ <;> simp [hc, hT]
      | queen =>
        simp only [Game.originWrongSide, Game.promotionMissing, hP]
        by_cases hc : sqBB m.toSq &&& g.board.piecesBySide g.nextTurnSide.flip = 0
        · simp [hc]
        · rcases hT : g.board.pieceAt m.toSq with _ | ⟨s2, cp⟩ <;> simp [hc, hT]
      | rook =>
        simp only [Game.originWrongSide, Game.promotionMissing, hP]
        by_cases hc : sqBB m.toSq &&& g.board.piecesBySide g.nextTurnSide.flip = 0
        · simp [hc]
        · rcases hT : g.board.pieceAt m.toSq with _ | ⟨s2, cp⟩ <;> simp [hc, hT]
      | king =>
        simp only [Game.originWrongSide, Game.promotionMissing, hP]
        by_cases hc : sqBB m.toSq &&& g.board.piecesBySide g.nextTurnSide.flip = 0
        · simp [hc]
        · rcases hT : g.board.pieceAt m.toSq with _ | ⟨s2, cp⟩ <;> simp [hc, hT]
    · simp [hs, Game.originWrongSide, Game.promotionMissing, hP]

/-- `make_pseudo_legal_move` never returns `IllegalMove` itself. -/
theorem mpm_no_illegalMove (g : Game) (m : Mov) :
    g.makePseudoLegalMove m ≠ .error .illegalMove := by
  unfold Game.makePseudoLegalMove
  rcases hP : g.board.pieceAt m.fromSq with _ | ⟨s, pc⟩
  · simp
  · by_cases hs : s = g.nextTurnSide
    · subst hs
      simp only [ne_eq, not_true_eq_false, not_false_eq_true, if_true, if_neg, ite_false]
      cases pc with
      | pawn =>
        by_cases hdp : ((m.fromSq >>> 3 = 1 ∧ m.toSq >>> 3 = 3) ∨
                        (m.fromSq >>> 3 = 6 ∧ m.toSq >>> 3 = 4))
        · simp [hdp]
        · by_cases hcap : (m.fromSq &&& 7) = (m.toSq &&& 7)
          · by_cases hr : (m.toSq >>> 3 = 7 ∨ m.toSq >>> 3 = 0)
            · rcases hpr : m.promotion with _ | p <;> simp [hdp, hcap, hr, hpr]
            · simp [hdp, hcap, hr]
          · cases hside : g.nextTurnSide with
            | white =>
              simp only [hside, Side.flip]
              by_cases hep : (sqBB m.toSq &&& g.board.piecesBySide Side.black) = 0
              · rcases hT : g.board.pieceAt (tzcnt64 (southOne (sqBB m.toSq)))
                  with _ | ⟨s2, cp⟩
                · simp [hdp, hcap, hep, hT]
                · by_cases hr : (m.toSq >>> 3 = 7 ∨ m.toSq >>> 3 = 0)
                  · rcases hpr : m.promotion with _ | p <;>
                      simp [hdp, hcap, hep, hT, hr, hpr]
                  · simp [hdp, hcap, hep, hT, hr]
              · rcases hT : g.board.pieceAt m.toSq with _ | ⟨s2, cp⟩
                · simp [hdp, hcap, hep, hT]
                · by_cases hr : (m.toSq >>> 3 = 7 ∨ m.toSq >>> 3 = 0)
                  · rcases hpr : m.promotion with _ | p <;>
                      simp [hdp, hcap, hep, hT, hr, hpr]
                  · simp [hdp, hcap, hep, hT, hr]
            | black =>
              simp only [hside, Side.flip]
              by_cases hep : (sqBB m.toSq &&& g.board.piecesBySide Side.white) = 0
              · rcases hT : g.board.pieceAt (tzcnt64 (northOne (sqBB m.toSq)))
                  with _ | ⟨s2, cp⟩
                · simp [hdp, hcap, hep, hT]
                · by_cases hr : (m.toSq >>> 3 = 7 ∨ m.toSq >>> 3 = 0)
                  · rcases hpr : m.promotion with _ | p <;>
                      simp [hdp, hcap, hep, hT, hr, hpr]
                  · simp [hdp, hcap, hep, hT, hr]
              · rcases hT : g.board.pieceAt m.toSq with _ | ⟨s2, cp⟩
                · simp [hdp, hcap, hep, hT]
                · by_cases hr : (m.toSq >>> 3 = 7 ∨ m.toSq >>> 3 = 0)
                  · rcases hpr : m.promotion with _ | p <;>
                      simp [hdp, hcap, hep, hT, hr, hpr]
                  · simp [hdp, hcap, hep, hT, hr]
      | knight =>
        by_cases hc : sqBB m.toSq &&& g.board.piecesBySide g.nextTurnSide.flip = 0
        · simp [hc]
        · rcases hT : g.board.pieceAt m.toSq with _ | ⟨s2, cp⟩ <;> simp [hc, hT]
      | bishop =>
        by_cases hc : sqBB m.toSq &&& g.board.piecesBySide g.nextTurnSide.flip = 0
        · simp [hc]
        · rcases hT : g.board.pieceAt m.toSq with _ | ⟨s2, cp⟩ <;> simp [hc, hT]
      | queen =>
        by_cases hc : sqBB m.toSq &&& g.board.piecesBySide g.nextTurnSide.flip = 0
        · simp [hc]
        · rcases hT : g.board.pieceAt m.toSq with _ | ⟨s2, cp⟩ <;> simp [hc, hT]
      | rook =>
        by_cases hc : sqBB m.toSq &&& g.board.piecesBySide g.nextTurnSide.flip = 0
        · simp [hc]
        · rcases hT : g.board.pieceAt m.toSq with _ | ⟨s2, cp⟩ <;> simp [hc, hT]
      | king =>
        by_cases hc : sqBB m.toSq &&& g.board.piecesBySide g.nextTurnSide.flip = 0
        · simp [hc]
        · rcases hT : g.board.pieceAt m.toSq with _ | ⟨s2, cp⟩ <;> simp [hc, hT]
    · simp [hs]

/-- A pseudo-legal destination requires a piece on the origin square. -/
theorem pseudoLegal_pieceAt_ne_none (g : Game) (m : Mov) (h : g.movIsPseudoLegal m) :
    g.board.pieceAt m.fromSq ≠ none := by
  intro hnone
  unfold Game.movIsPseudoLegal Game.pseudoLegalMovesFrom
    specBoardPseudoLegalMovesFrom at h
  simp [hnone] at h

/-- Claim C7 (amended): provided the internal lookups of move application do
not panic, `make_move` fails with `InvalidArgument` exactly when the
destination is pseudo-legal but the origin piece belongs to the side not to
move or a required promotion piece is missing, and fails with `IllegalMove`
exactly when the destination is outside the pseudo-legal set (in particular
whenever the origin square is empty) or the applied move leaves the mover's
own king attacked.  Failure returns only an error value: the caller's `Game`
is untouched by construction (pure value semantics). -/
theorem C7_error_classification (g : Game) (m : Mov)
    (hpanic : g.makePseudoLegalMove m ≠ .error .panicE) :
    (g.makeMove m = .error .invalidArgument ↔
      g.movIsPseudoLegal m ∧ (g.originWrongSide m ∨ g.promotionMissing m)) ∧
    (g.makeMove m = .error .illegalMove ↔
      (¬ g.movIsPseudoLegal m ∨
        ∃ g2, g.makePseudoLegalMove m = .ok g2 ∧
          g2.board.isKingAttacked g.nextTurnSide = true)) := by
  have hinv := mpm_invalid_iff g m hpanic
  unfold Game.makeMove
  by_cases hm : g.movIsPseudoLegal m
  · have hne := pseudoLegal_pieceAt_ne_none g m hm
    rw [if_neg hm]
    rcases hmp : g.makePseudoLegalMove m with e | g2
    · cases e with
      | invalidArgument =>
        constructor
        · simp only [hm, true_and, true_iff]
          rcases (hinv.mp hmp) with h | h | h
          · exact absurd h hne
          · exact Or.inl h
          · exact Or.inr h
        · constructor
          · intro hc; exact absurd hc (by simp)
          · rintro (hc | ⟨g2, hg2, _⟩)
            · exact absurd hm hc
            · exact absurd hg2 (by simp)
      | illegalMove => exact absurd hmp (mpm_no_illegalMove g m)
      | panicE => exact absurd hmp hpanic
    · dsimp only
      have hnotInv : ¬ (g.originWrongSide m ∨ g.promotionMissing m) := by
        intro hc
        have : g.makePseudoLegalMove m = .error .invalidArgument :=
          hinv.mpr (Or.inr hc)
        rw [hmp] at this
        exact absurd this (by simp)
      by_cases hatt : g2.board.isKingAttacked g.nextTurnSide = true
      · rw [if_pos hatt]
        constructor
        · constructor
          · intro hc; exact absurd hc (by simp)
          · intro hc; exact absurd hc.2 hnotInv
        · constructor
          · intro _; exact Or.inr ⟨g2, rfl, hatt⟩
          · intro _; rfl
      · rw [if_neg hatt]
        constructor
        · constructor
          · intro hc; exact absurd hc (by simp)
          · intro hc; exact absurd hc.2 hnotInv
        · constructor
          · intro hc; exact absurd hc (by simp)
          · rintro (hc | ⟨g2x, hg2, hax⟩)
            · exact absurd hm hc
            · have heq2 : g2x = g2 := (Except.ok.inj hg2).symm
              subst heq2
              exact absurd hax hatt
  · rw [if_pos (by by_contra hc; exact hm hc)]
    constructor
    · constructor
      · intro hc; exact absurd hc (by simp)
      · intro hc; exact absurd hc.1 hm
    · constructor
      · intro _; exact Or.inl hm
      · intro _; rfl

/-- The offer closure of `legal_moves_from` keeps exactly its argument,
when move application succeeds, both kings survive, and the mover's king is
not attacked. -/
theorem offerPseudoMove_eq_some_iff (g : Game) (mov m : Mov) :
    g.offerPseudoMove mov = some m ↔
      m = mov ∧ ∃ g2, g.makePseudoLegalMove mov = .ok g2 ∧
        g2.board.hasBothKings = true ∧
        g2.board.isKingAttacked g.nextTurnSide = false := by
  unfold Game.offerPseudoMove
  rcases h : g.makePseudoLegalMove mov with e | g2
  · simp
  · dsimp only
    by_cases hbk : g2.board.hasBothKings = true
    · by_cases hatt : g2.board.isKingAttacked g.nextTurnSide = true
      · simp [hbk, hatt]
      · have hatt2 : g2.board.isKingAttacked g.nextTurnSide = false := by
          simpa using hatt
        rw [if_neg (by simp [hbk]), if_neg (by simp [hatt2])]
        constructor
        · intro he
          exact ⟨(Option.some.inj he).symm, g2, rfl, hbk, hatt2⟩
        · rintro ⟨he, g2x, hg2, h1, h2⟩
          subst he
          rfl
    · simp only [hbk, Except.ok.injEq]
      constructor
      · intro he; exact absurd he (by simp [hbk])
      · rintro ⟨he, g2x, hg2, hbk2, _⟩
        subst hg2
        exact absurd hbk2 hbk

/-- Claim C10: `legal_moves_from` keeps a pseudo-legal move only if, after
its tentative application, the board still contains both kings and the
mover's king is not attacked, and for a pawn destination on rank 8 or
rank 1 it enumerates the four promotion pieces as separate candidate moves.
The hypotheses keep the source's `unwrap` (a panic on foreign or
inconsistent inputs) unreachable: the origin belongs to the side to move and
no en-passant file is open. -/
theorem C10_legal_moves_characterization (g : Game) (f : Nat) (m : Mov)
    (hside : ∃ pc, g.board.pieceAt f = some (g.nextTurnSide, pc))
    (hep : getEnPassantOpenFiles g.state = []) :
    m ∈ g.legalMovesFrom f ↔
      ∃ t, (t < 64 ∧ (g.pseudoLegalMovesFrom f).testBit t) ∧
        (((t >>> 3 = 7 ∨ t >>> 3 = 0) ∧ g.board.isPawn f = true ∧
            ∃ p ∈ PROMO_PIECES, m = ⟨f, t, some p⟩) ∨
         (¬ ((t >>> 3 = 7 ∨ t >>> 3 = 0) ∧ g.board.isPawn f = true) ∧
            m = ⟨f, t, none⟩)) ∧
        ∃ g2, g.makePseudoLegalMove m = .ok g2 ∧
          g2.board.hasBothKings = true ∧
          g2.board.isKingAttacked g.nextTurnSide = false := by
  unfold Game.legalMovesFrom
  simp only [List.mem_flatMap, bbSquares, List.mem_filter, List.mem_range,
    List.mem_filterMap, Option.mem_toList, offerPseudoMove_eq_some_iff]
  constructor
  · rintro ⟨t, ht, hin⟩
    by_cases hc : ((t >>> 3 = 7 ∨ t >>> 3 = 0) ∧ g.board.isPawn f = true)
    · rw [if_pos (by rw [if_pos hc.1]; exact hc.2)] at hin
      rw [List.mem_filterMap] at hin
      obtain ⟨p, hp, hoff⟩ := hin
      rw [offerPseudoMove_eq_some_iff] at hoff
      obtain ⟨hmeq, hC⟩ := hoff
      subst hmeq
      exact ⟨t, ht, Or.inl ⟨hc.1, hc.2, p, hp, rfl⟩, hC⟩
    · have hcond : ¬ ((if t >>> 3 = 7 ∨ t >>> 3 = 0 then g.board.isPawn f
          else false) = true) := by
        intro hcond
        by_cases h7 : (t >>> 3 = 7 ∨ t >>> 3 = 0)
        · rw [if_pos h7] at hcond; exact hc ⟨h7, hcond⟩
        · rw [if_neg h7] at hcond; exact absurd hcond (by simp)
      rw [if_neg hcond, Option.mem_toList, Option.mem_def,
        offerPseudoMove_eq_some_iff] at hin
      obtain ⟨hmeq, hC⟩ := hin
      subst hmeq
      exact ⟨t, ht, Or.inr ⟨hc, rfl⟩, hC⟩
  · rintro ⟨t, ht, hshape, hC⟩
    refine ⟨t, ht, ?_⟩
    rcases hshape with ⟨h7, hp, p, hpmem, hmeq⟩ | ⟨hc, hmeq⟩
    · subst hmeq
      rw [if_pos (by rw [if_pos h7]; exact hp)]
      rw [List.mem_filterMap]
      exact ⟨p, hpmem, (offerPseudoMove_eq_some_iff g _ _).mpr ⟨rfl, hC⟩⟩
    · subst hmeq
      have hcond : ¬ ((if t >>> 3 = 7 ∨ t >>> 3 = 0 then g.board.isPawn f
          else false) = true) := by
        intro hcond
        by_cases h7 : (t >>> 3 = 7 ∨ t >>> 3 = 0)
        · rw [if_pos h7] at hcond; exact hc ⟨h7, hcond⟩
        · rw [if_neg h7] at hcond; exact absurd hcond (by simp)
      rw [if_neg hcond, Option.mem_toList, Option.mem_def,
        offerPseudoMove_eq_some_iff]
      exact ⟨rfl, hC⟩

set_option maxRecDepth 4000 in
/-- Witness for C7 at the concrete input: white to move in the starting
position, moving the black pawn a7-a6 (a pseudo-legal destination of a piece
of the wrong side). -/
theorem C7_error_classification_witness :
    (startGame.makeMove ⟨48, 40, none⟩ = .error .invalidArgument ↔
      startGame.movIsPseudoLegal ⟨48, 40, none⟩ ∧
        (startGame.originWrongSide ⟨48, 40, none⟩ ∨
         startGame.promotionMissing ⟨48, 40, none⟩)) ∧
    (startGame.makeMove ⟨48, 40, none⟩ = .error .illegalMove ↔
      (¬ startGame.movIsPseudoLegal ⟨48, 40, none⟩ ∨
        ∃ g2, startGame.makePseudoLegalMove ⟨48, 40, none⟩ = .ok g2 ∧
          g2.board.isKingAttacked startGame.nextTurnSide = true)) :=
  C7_error_classification startGame ⟨48, 40, none⟩ (by decide)

set_option maxRecDepth 4000 in
/-- Witness for C10 at the concrete input: the knight move g1-f3 in the
starting position. -/
theorem C10_legal_moves_characterization_witness :
    ∃ t, (t < 64 ∧ (startGame.pseudoLegalMovesFrom 6).testBit t) ∧
      (((t >>> 3 = 7 ∨ t >>> 3 = 0) ∧ startGame.board.isPawn 6 = true ∧
          ∃ p ∈ PROMO_PIECES, Mov.mk 6 21 none = ⟨6, t, some p⟩) ∨
       (¬ ((t >>> 3 = 7 ∨ t >>> 3 = 0) ∧ startGame.board.isPawn 6 = true) ∧
          Mov.mk 6 21 none = ⟨6, t, none⟩)) ∧
      ∃ g2, startGame.makePseudoLegalMove ⟨6, 21, none⟩ = .ok g2 ∧
        g2.board.hasBothKings = true ∧
        g2.board.isKingAttacked startGame.nextTurnSide = false :=
  (C10_legal_moves_characterization startGame 6 ⟨6, 21, none⟩
    ⟨.knight, by decide⟩ (by decide)).mp (by decide)

end DotChess
